import Mathlib

set_option linter.unusedVariables false

namespace Cras

/-! Shallow embedding of the CRAS Bluetooth policy engine (cras_bt_policy.c)
and of the iodev volume/gain helpers (cras_iodev.h).

The policy engine's mutable state (the three policy record lists, the timer
manager, and the calls it makes into external collaborators) is modelled as an
explicit `PolicyState`; calls to collaborators (DEVLIST suspend/resume,
A2DP/HFP-AG teardown, the BT registry, syslog, BTLOG) are recorded as events
appended to a trace. -/

/-- 2^32, the modulus of C `unsigned int` arithmetic. -/
def UINT32_LIMIT : Nat := 4294967296

/-- C unsigned-int subtraction `a - b`, wrapping modulo 2^32. -/
def usub (a b : Nat) : Nat :=
  (a % UINT32_LIMIT + (UINT32_LIMIT - b % UINT32_LIMIT)) % UINT32_LIMIT

/-- struct cras_ionode (the fields the volume/gain helpers read):
`volume` is `unsigned int volume` (per-node volume 0-100) and
`capture_gain` is `long capture_gain`. -/
structure cras_ionode where
  volume : Nat
  capture_gain : Int
deriving DecidableEq, Repr

/-- `cras_iodev_adjust_node_volume` from cras_iodev.h:
`node_vol_offset = 100 - node->volume` in unsigned arithmetic, then
`system_volume - node_vol_offset` if `system_volume > node_vol_offset`,
else 0. -/
def cras_iodev_adjust_node_volume (node : cras_ionode) (system_volume : Nat) : Nat :=
  let node_vol_offset : Nat := usub 100 node.volume
  if system_volume % UINT32_LIMIT > node_vol_offset then
    usub system_volume node_vol_offset
  else
    0

/-- struct cras_iodev, restricted to the `active_node` field read by the
active-node volume/gain helpers. -/
structure cras_iodev where
  active_node : Option cras_ionode
deriving DecidableEq, Repr

/-- `cras_iodev_adjust_active_node_volume` from cras_iodev.h: returns
`system_volume` unchanged when `active_node` is NULL, else defers to
`cras_iodev_adjust_node_volume`. -/
def cras_iodev_adjust_active_node_volume (iodev : cras_iodev) (system_volume : Nat) : Nat :=
  match iodev.active_node with
  | none => system_volume
  | some node => cras_iodev_adjust_node_volume node system_volume

/-- `cras_iodev_adjust_active_node_gain` from cras_iodev.h: returns
`system_gain` unchanged when `active_node` is NULL, else
`active_node->capture_gain + system_gain`. -/
def cras_iodev_adjust_active_node_gain (iodev : cras_iodev) (system_gain : Int) : Int :=
  match iodev.active_node with
  | none => system_gain
  | some node => node.capture_gain + system_gain

/-! ## BT policy engine: data model -/

/-- Constants from cras_bt_policy.c. -/
def CONN_WATCH_PERIOD_MS : Nat := 2000

def CONN_WATCH_MAX_RETRIES : Int := 30

def PROFILE_SWITCH_DELAY_MS : Nat := 500

/-- Profile bits from enum cras_bt_device_profile (cras_bt_device.h). -/
def CRAS_BT_DEVICE_PROFILE_A2DP_SINK : Nat := 2

def CRAS_BT_DEVICE_PROFILE_HFP_HANDSFREE : Nat := 16

/-- enum cras_bt_policy_suspend_reason (cras_bt_device.h). -/
inductive SuspendReason
  | A2DP_LONG_TX_FAILURE
  | A2DP_TX_FATAL_ERROR
  | CONN_WATCH_TIME_OUT
  | HFP_SCO_SOCKET_ERROR
  | HFP_AG_START_FAILURE
  | UNEXPECTED_PROFILE_DROP
deriving DecidableEq, Repr

/-- The syslog message emitted by `suspend_cb` for each reason. -/
def suspend_reason_msg : SuspendReason → String
  | .A2DP_LONG_TX_FAILURE => "Suspend dev: A2DP long Tx failure"
  | .A2DP_TX_FATAL_ERROR => "Suspend dev: A2DP Tx fatal error"
  | .CONN_WATCH_TIME_OUT => "Suspend dev: Conn watch times out"
  | .HFP_SCO_SOCKET_ERROR => "Suspend dev: SCO socket error"
  | .HFP_AG_START_FAILURE => "Suspend dev: HFP AG start failure"
  | .UNEXPECTED_PROFILE_DROP => "Suspend dev: Unexpected profile drop"

/-- The two UUID string constants the policy passes to
`cras_bt_device_connect_profile` (from cras_bt_constants.h). -/
inductive UUID
  | A2DP_SINK_UUID
  | HFP_HF_UUID
deriving DecidableEq, Repr

/-- Stream directions iterated by `switch_profile`.  Modelled from the spec:
the enum itself lives in a header that is not part of the visible sources;
a BTDevice has "up to two attached iodev slots indexed by direction", and
`CRAS_STREAM_OUTPUT` precedes `CRAS_STREAM_INPUT` (direction 0 and 1). -/
inductive CRAS_STREAM_DIRECTION
  | CRAS_STREAM_OUTPUT
  | CRAS_STREAM_INPUT
deriving DecidableEq, Repr

/-- The two directions, in the order dir = 0, 1 of the C loops. -/
def all_directions : List CRAS_STREAM_DIRECTION :=
  [.CRAS_STREAM_OUTPUT, .CRAS_STREAM_INPUT]

/-- Snapshot of the fields of a `struct cras_bt_device` that the policy code
reads at one call, together with the outcome of the external
`cras_hfp_ag_start` collaborator.  BT devices themselves are identified by a
natural number; iodevs attached to the device are identified by their
`info.idx`. -/
structure DevState where
  profiles : Nat
  connected_profiles : Nat
  bt_iodev_output : Option Nat
  bt_iodev_input : Option Nat
  hfp_ag_start_rc : Int
deriving DecidableEq, Repr

/-- `device->bt_iodevs[dir]`. -/
def DevState.bt_iodevs (dev : DevState) : CRAS_STREAM_DIRECTION → Option Nat
  | .CRAS_STREAM_OUTPUT => dev.bt_iodev_output
  | .CRAS_STREAM_INPUT => dev.bt_iodev_input

/-- Modelled from the spec: `cras_bt_device_supports_profile` (declared in
cras_bt_device.h, body not in the visible sources).  The spec gives the
BTDevice "two bitmasks (supported profiles, connected profiles)" and the
registry "per-profile query predicates". -/
def cras_bt_device_supports_profile (dev : DevState) (profile : Nat) : Bool :=
  dev.profiles &&& profile ≠ 0

/-- Modelled from the spec: `cras_bt_device_is_profile_connected`, the
connected-profiles counterpart of `cras_bt_device_supports_profile`. -/
def cras_bt_device_is_profile_connected (dev : DevState) (profile : Nat) : Bool :=
  dev.connected_profiles &&& profile ≠ 0

/-- Calls the policy code makes into its collaborators, recorded in a trace. -/
inductive Event
  | update_active_node (idx node_idx dev_enabled : Nat)
  | resume_dev (idx : Nat)
  | suspend_dev (idx : Nat)
  | btlog_suspend_cb (profiles : Nat) (reason : SuspendReason)
  | btlog_conn_watch_cb (retries : Int) (profiles : Nat)
  | syslog_err (msg : String)
  | syslog_err_rc (msg : String) (rc : Int)
  | syslog_debug_retries (retries : Int)
  | a2dp_suspend_connected_device (device : Nat)
  | hfp_ag_suspend_connected_device (device : Nat)
  | bt_device_disconnect (device : Nat)
  | connect_profile (device : Nat) (uuid : UUID)
  | remove_conflict (device : Nat)
  | a2dp_start (device : Nat)
  | hfp_ag_start (device : Nat) (rc : Int)
  | set_nodes_plugged (device : Nat) (plugged : Nat)
deriving DecidableEq, Repr

/-- The callback and argument a timer was created with.  Policy records are
keyed by device, so the record a callback receives is identified by the
owning device. -/
inductive TimerCb
  | profile_switch_delay_cb (device : Nat)
  | suspend_cb (device : Nat)
  | conn_watch_cb (device : Nat)
deriving DecidableEq, Repr

/-- A pending one-shot timer in the timer manager: creation handle,
absolute deadline in ms, callback. -/
structure ArmedTimer where
  id : Nat
  deadline : Nat
  cb : TimerCb
deriving DecidableEq, Repr

/-- Modelled from the spec: the timer manager (cras_tm, not in the visible
sources) — one-shot millisecond timers, cancellable by handle, never firing
after cancellation.  `now` is the main loop's clock, `next_id` the next fresh
handle. -/
structure CrasTm where
  now : Nat
  next_id : Nat
  armed : List ArmedTimer
deriving DecidableEq, Repr

/-- struct profile_switch_policy. -/
structure profile_switch_policy where
  device : Nat
  timer : Option Nat
deriving DecidableEq, Repr

/-- struct suspend_policy. -/
structure suspend_policy where
  device : Nat
  suspend_reason : SuspendReason
  timer : Option Nat
deriving DecidableEq, Repr

/-- struct connection_watch. -/
structure connection_watch where
  device : Nat
  retries_left : Int
  timer : Option Nat
deriving DecidableEq, Repr

/-- The whole mutable state of cras_bt_policy.c: the three global policy
lists, the timer manager, and the trace of collaborator calls made so far. -/
structure PolicyState where
  tm : CrasTm
  profile_switch_policies : List profile_switch_policy
  suspend_policies : List suspend_policy
  conn_watch_policies : List connection_watch
  trace : List Event
deriving DecidableEq, Repr

/-- Record one collaborator call. -/
def emit (e : Event) (s : PolicyState) : PolicyState :=
  { s with trace := s.trace ++ [e] }

/-- Record a sequence of collaborator calls. -/
def emit_many (es : List Event) (s : PolicyState) : PolicyState :=
  { s with trace := s.trace ++ es }

/-- Modelled from the spec: `cras_tm_create_timer(tm, ms, cb, arg)` — arms a
fresh one-shot timer due `ms` from now and returns its handle. -/
def cras_tm_create_timer (s : PolicyState) (ms : Nat) (cb : TimerCb) : PolicyState × Nat :=
  ({ s with
     tm := { now := s.tm.now
             next_id := s.tm.next_id + 1
             armed := s.tm.armed ++ [⟨s.tm.next_id, s.tm.now + ms, cb⟩] } },
   s.tm.next_id)

/-- Modelled from the spec: `cras_tm_cancel_timer(tm, h)` — "always safe,
including after expiry has been dispatched (in which case it is a no-op)";
the timer with the given handle (if any is still pending) is removed and
never fires afterwards; cancelling a NULL handle removes nothing. -/
def cras_tm_cancel_timer (s : PolicyState) (t : Option Nat) : PolicyState :=
  { s with
    tm := { now := s.tm.now
            next_id := s.tm.next_id
            armed := s.tm.armed.filter (fun a => some a.id ≠ t) } }

/-! ## BT policy engine: operations (cras_bt_policy.c) -/

/-- Replace the fields of the (unique, by the per-device invariant) record
for `device` — the C code mutates the record the callback received or the
list search found. -/
def update_cw (l : List connection_watch) (device : Nat)
    (f : connection_watch → connection_watch) : List connection_watch :=
  l.map (fun p => if p.device = device then f p else p)

/-- `profile_switch_delay_cb`: reads `device->bt_iodevs[CRAS_STREAM_OUTPUT]`
at fire time (snapshot `dev`); if an iodev is there, calls its
`update_active_node(iodev, 0, 1)` and `cras_iodev_list_resume_dev`; then
deletes and frees its own record. -/
def profile_switch_delay_cb (device : Nat) (dev : DevState) (s : PolicyState) : PolicyState :=
  let s :=
    match dev.bt_iodevs .CRAS_STREAM_OUTPUT with
    | some idx => emit (.resume_dev idx) (emit (.update_active_node idx 0 1) s)
    | none => s
  { s with
    profile_switch_policies :=
      s.profile_switch_policies.eraseP (fun p => p.device == device) }

/-- `switch_profile_with_delay`: search the list for the device's record; if
found, cancel its timer (the record object is reused and DL_APPEND re-links
it at the tail), else calloc a fresh record; then arm a
`PROFILE_SWITCH_DELAY_MS` timer for `profile_switch_delay_cb` and store its
handle in the record. -/
def switch_profile_with_delay (device : Nat) (s : PolicyState) : PolicyState :=
  match s.profile_switch_policies.find? (fun p => p.device == device) with
  | some policy =>
    let s := cras_tm_cancel_timer s policy.timer
    let r := cras_tm_create_timer s PROFILE_SWITCH_DELAY_MS (.profile_switch_delay_cb device)
    { r.1 with
      profile_switch_policies :=
        (r.1.profile_switch_policies.eraseP (fun p => p.device == device))
          ++ [⟨device, some r.2⟩] }
  | none =>
    let r := cras_tm_create_timer s PROFILE_SWITCH_DELAY_MS (.profile_switch_delay_cb device)
    { r.1 with
      profile_switch_policies := r.1.profile_switch_policies ++ [⟨device, some r.2⟩] }

/-- `switch_profile` (the `bt_iodev` message argument is unused in the C
body).  First loop: suspend via DEVLIST every direction whose
`bt_iodevs` slot is non-NULL.  Second loop: for the input direction call
`update_active_node(iodev, 0, 1)` and resume immediately; for the output
direction defer to `switch_profile_with_delay`. -/
def switch_profile (device : Nat) (dev : DevState) (s : PolicyState) : PolicyState :=
  let s := all_directions.foldl
    (fun s dir =>
      match dev.bt_iodevs dir with
      | none => s
      | some idx => emit (.suspend_dev idx) s) s
  all_directions.foldl
    (fun s dir =>
      match dev.bt_iodevs dir with
      | none => s
      | some idx =>
        if dir = .CRAS_STREAM_INPUT then
          emit (.resume_dev idx) (emit (.update_active_node idx 0 1) s)
        else
          switch_profile_with_delay device s) s

/-- `suspend_cb`: BTLOG the fire, syslog the reason, suspend the connected
A2DP device, suspend the connected HFP-AG device, force-disconnect the
device, then delete and free the record. -/
def suspend_cb (device : Nat) (dev : DevState) (s : PolicyState) : PolicyState :=
  match s.suspend_policies.find? (fun p => p.device == device) with
  | none => s
  | some policy =>
    let s := emit (.btlog_suspend_cb dev.profiles policy.suspend_reason) s
    let s := emit (.syslog_err (suspend_reason_msg policy.suspend_reason)) s
    let s := emit (.a2dp_suspend_connected_device device) s
    let s := emit (.hfp_ag_suspend_connected_device device) s
    let s := emit (.bt_device_disconnect device) s
    { s with
      suspend_policies := s.suspend_policies.eraseP (fun p => p.device == device) }

/-- `schedule_suspend`: drop the call if a record for the device already
exists; otherwise create a record with the given reason and arm a timer for
`suspend_cb` due in `msec`. -/
def schedule_suspend (device : Nat) (msec : Nat) (reason : SuspendReason)
    (s : PolicyState) : PolicyState :=
  match s.suspend_policies.find? (fun p => p.device == device) with
  | some _ => s
  | none =>
    let r := cras_tm_create_timer s msec (.suspend_cb device)
    { r.1 with
      suspend_policies := r.1.suspend_policies ++ [⟨device, reason, some r.2⟩] }

/-- `cancel_suspend`: if a record for the device exists, cancel its timer
and delete and free the record. -/
def cancel_suspend (device : Nat) (s : PolicyState) : PolicyState :=
  match s.suspend_policies.find? (fun p => p.device == device) with
  | none => s
  | some policy =>
    let s := cras_tm_cancel_timer s policy.timer
    { s with
      suspend_policies := s.suspend_policies.eraseP (fun p => p.device == device) }

/-- The profile-connect requests one `conn_watch_cb` tick sends: only when
both A2DP and HFP are supported, and then the one of the two that is not yet
connected (the two inner `if`s of the C code; their conditions are mutually
exclusive). -/
def connect_missing_events (device : Nat) (dev : DevState) : List Event :=
  let a2dp_supported := cras_bt_device_supports_profile dev CRAS_BT_DEVICE_PROFILE_A2DP_SINK
  let a2dp_connected :=
    cras_bt_device_is_profile_connected dev CRAS_BT_DEVICE_PROFILE_A2DP_SINK
  let hfp_supported :=
    cras_bt_device_supports_profile dev CRAS_BT_DEVICE_PROFILE_HFP_HANDSFREE
  let hfp_connected :=
    cras_bt_device_is_profile_connected dev CRAS_BT_DEVICE_PROFILE_HFP_HANDSFREE
  if a2dp_supported && hfp_supported then
    (if !a2dp_connected && hfp_connected then
      [Event.connect_profile device UUID.A2DP_SINK_UUID]
    else [])
      ++ (if a2dp_connected && !hfp_connected then
        [Event.connect_profile device UUID.HFP_HF_UUID]
      else [])
  else []

/-- `conn_watch_cb`: periodic check whether the supported audio profiles are
connected, with snapshot `dev` of the device at fire time. -/
def conn_watch_cb (device : Nat) (dev : DevState) (s : PolicyState) : PolicyState :=
  match s.conn_watch_policies.find? (fun p => p.device == device) with
  | none => s
  | some policy =>
    let s := emit (.btlog_conn_watch_cb policy.retries_left dev.profiles) s
    let s := { s with
               conn_watch_policies :=
                 update_cw s.conn_watch_policies device (fun p => { p with timer := none }) }
    if dev.profiles = 0 then
      { s with
        conn_watch_policies :=
          s.conn_watch_policies.eraseP (fun p => p.device == device) }
    else
      let a2dp_supported := cras_bt_device_supports_profile dev CRAS_BT_DEVICE_PROFILE_A2DP_SINK
      let a2dp_connected :=
        cras_bt_device_is_profile_connected dev CRAS_BT_DEVICE_PROFILE_A2DP_SINK
      let hfp_supported :=
        cras_bt_device_supports_profile dev CRAS_BT_DEVICE_PROFILE_HFP_HANDSFREE
      let hfp_connected :=
        cras_bt_device_is_profile_connected dev CRAS_BT_DEVICE_PROFILE_HFP_HANDSFREE
      let s := emit_many (connect_missing_events device dev) s
      if a2dp_supported != a2dp_connected || hfp_supported != hfp_connected then
        let s := emit (.syslog_debug_retries policy.retries_left) s
        let retries := policy.retries_left - 1
        if retries ≠ 0 then
          let r := cras_tm_create_timer s CONN_WATCH_PERIOD_MS (.conn_watch_cb device)
          { r.1 with
            conn_watch_policies :=
              update_cw r.1.conn_watch_policies device
                (fun p => { p with retries_left := retries, timer := some r.2 }) }
        else
          let s := { s with
                     conn_watch_policies :=
                       update_cw s.conn_watch_policies device
                         (fun p => { p with retries_left := retries }) }
          let s := emit (.syslog_err "Connection watch timeout.") s
          schedule_suspend device 0 .CONN_WATCH_TIME_OUT s
      else
        let s := emit (.remove_conflict device) s
        let s :=
          if cras_bt_device_is_profile_connected dev CRAS_BT_DEVICE_PROFILE_A2DP_SINK then
            emit (.a2dp_start device) s
          else s
        let s :=
          if cras_bt_device_is_profile_connected dev CRAS_BT_DEVICE_PROFILE_HFP_HANDSFREE then
            let rc := dev.hfp_ag_start_rc
            let s := emit (.hfp_ag_start device rc) s
            if rc ≠ 0 then
              let s := emit (.syslog_err_rc "Start audio gateway failed" rc) s
              schedule_suspend device 0 .HFP_AG_START_FAILURE s
            else s
          else s
        let s := emit (.set_nodes_plugged device 1) s
        { s with
          conn_watch_policies :=
            s.conn_watch_policies.eraseP (fun p => p.device == device) }

/-- `cras_bt_policy_start_connection_watch`: reuse (cancelling its timer) or
calloc-and-append the device's record, then reset `retries_left` to
`CONN_WATCH_MAX_RETRIES` and arm a `CONN_WATCH_PERIOD_MS` timer for
`conn_watch_cb`. -/
def cras_bt_policy_start_connection_watch (device : Nat) (s : PolicyState) : PolicyState :=
  match s.conn_watch_policies.find? (fun p => p.device == device) with
  | some policy =>
    let s := cras_tm_cancel_timer s policy.timer
    let r := cras_tm_create_timer s CONN_WATCH_PERIOD_MS (.conn_watch_cb device)
    { r.1 with
      conn_watch_policies :=
        update_cw r.1.conn_watch_policies device
          (fun p => { p with retries_left := CONN_WATCH_MAX_RETRIES, timer := some r.2 }) }
  | none =>
    let r := cras_tm_create_timer s CONN_WATCH_PERIOD_MS (.conn_watch_cb device)
    { r.1 with
      conn_watch_policies :=
        r.1.conn_watch_policies ++ [⟨device, CONN_WATCH_MAX_RETRIES, some r.2⟩] }

/-- `cras_bt_policy_stop_connection_watch`: if the device has a record,
cancel its timer and delete and free the record. -/
def cras_bt_policy_stop_connection_watch (device : Nat) (s : PolicyState) : PolicyState :=
  match s.conn_watch_policies.find? (fun p => p.device == device) with
  | none => s
  | some policy =>
    let s := cras_tm_cancel_timer s policy.timer
    { s with
      conn_watch_policies :=
        s.conn_watch_policies.eraseP (fun p => p.device == device) }

/-- `cras_bt_policy_remove_device`: drop the profile-switch record (cancelling
its timer), then `cancel_suspend`, then stop the connection watch. -/
def cras_bt_policy_remove_device (device : Nat) (s : PolicyState) : PolicyState :=
  let s :=
    match s.profile_switch_policies.find? (fun p => p.device == device) with
    | none => s
    | some policy =>
      let s := { s with
                 profile_switch_policies :=
                   s.profile_switch_policies.eraseP (fun p => p.device == device) }
      cras_tm_cancel_timer s policy.timer
  let s := cancel_suspend device s
  cras_bt_policy_stop_connection_watch device s

/-- Run a timer callback.  Policy records are keyed by the owning device, so
the callback receives the device whose record was its argument, together
with a snapshot of that device at fire time. -/
def dispatch_cb (cb : TimerCb) (dev : DevState) (s : PolicyState) : PolicyState :=
  match cb with
  | .profile_switch_delay_cb d => profile_switch_delay_cb d dev s
  | .suspend_cb d => suspend_cb d dev s
  | .conn_watch_cb d => conn_watch_cb d dev s

/-- The main loop reaches the deadline of armed timer `tid` and dispatches
it: the clock moves to the deadline, the one-shot timer is removed, and its
callback runs against device snapshot `dev`. -/
def fire_timer_id (tid : Nat) (dev : DevState) (s : PolicyState) : PolicyState :=
  match s.tm.armed.find? (fun t => t.id == tid) with
  | none => s
  | some t =>
    let s := { s with
               tm := { now := t.deadline
                       next_id := s.tm.next_id
                       armed := s.tm.armed.eraseP (fun a => a.id == tid) } }
    dispatch_cb t.cb dev s

/-- Fire the pending connection-watch timer of `device` at its deadline. -/
def fire_conn_watch (device : Nat) (dev : DevState) (s : PolicyState) : PolicyState :=
  match s.tm.armed.find? (fun t => t.cb == TimerCb.conn_watch_cb device) with
  | none => s
  | some t => fire_timer_id t.id dev s

/-- Invoke `switch_profile` for device `d` at wall-clock time `t` with device
snapshot `dev`. -/
def switch_at (d t : Nat) (dev : DevState) (s : PolicyState) : PolicyState :=
  switch_profile d dev
    { s with
      tm := { now := t
              next_id := s.tm.next_id
              armed := s.tm.armed } }

/-- Invoke `switch_profile` for device `d` once per element of `l`, each at
the given time with the given device snapshot. -/
def run_switches (d : Nat) (l : List (Nat × DevState)) (s : PolicyState) : PolicyState :=
  l.foldl (fun s td => switch_at d td.1 td.2 s) s

/-- Run `n` connection-watch ticks for device `d`, the `i`-th against device
snapshot `envs i`, each fired at its timer's deadline. -/
def run_watch_ticks (d : Nat) (envs : Nat → DevState) : Nat → PolicyState → PolicyState
  | 0, s => s
  | n + 1, s => fire_conn_watch d (envs n) (run_watch_ticks d envs n s)

/-- One policy operation: the externally triggerable entry points of
cras_bt_policy.c, a timer expiry, or the clock advancing. -/
inductive PolicyOp
  | op_switch_profile (device : Nat) (dev : DevState)
  | op_schedule_suspend (device : Nat) (msec : Nat) (reason : SuspendReason)
  | op_cancel_suspend (device : Nat)
  | op_start_conn_watch (device : Nat)
  | op_stop_conn_watch (device : Nat)
  | op_remove_device (device : Nat)
  | op_fire (tid : Nat) (dev : DevState)
  | op_advance (ms : Nat)

/-- Interpret one policy operation. -/
def step (s : PolicyState) (op : PolicyOp) : PolicyState :=
  match op with
  | .op_switch_profile d dev => switch_profile d dev s
  | .op_schedule_suspend d ms r => schedule_suspend d ms r s
  | .op_cancel_suspend d => cancel_suspend d s
  | .op_start_conn_watch d => cras_bt_policy_start_connection_watch d s
  | .op_stop_conn_watch d => cras_bt_policy_stop_connection_watch d s
  | .op_remove_device d => cras_bt_policy_remove_device d s
  | .op_fire tid dev => fire_timer_id tid dev s
  | .op_advance ms =>
    { s with
      tm := { now := s.tm.now + ms
              next_id := s.tm.next_id
              armed := s.tm.armed } }

/-- Interpret a sequence of policy operations. -/
def run (s : PolicyState) (ops : List PolicyOp) : PolicyState := ops.foldl step s

/-- The state right after `cras_bt_policy_start()`: empty lists, no pending
timers, nothing logged. -/
def initial_state : PolicyState :=
  { tm := { now := 0, next_id := 0, armed := [] }
    profile_switch_policies := []
    suspend_policies := []
    conn_watch_policies := []
    trace := [] }

/-! ## Views used in claim statements -/

/-- The profile-switch records of a device. -/
def psw_for (s : PolicyState) (d : Nat) : List profile_switch_policy :=
  s.profile_switch_policies.filter (fun p => p.device == d)

/-- The suspend records of a device. -/
def sus_for (s : PolicyState) (d : Nat) : List suspend_policy :=
  s.suspend_policies.filter (fun p => p.device == d)

/-- The connection-watch records of a device. -/
def cw_for (s : PolicyState) (d : Nat) : List connection_watch :=
  s.conn_watch_policies.filter (fun p => p.device == d)

/-- The pending timers with a given callback. -/
def armed_for (s : PolicyState) (cb : TimerCb) : List ArmedTimer :=
  s.tm.armed.filter (fun t => t.cb == cb)

/-- "Some supported profile remains unconnected": A2DP-Sink or HFP-HandsFree
is supported by the device but not connected. -/
def profile_missing (dev : DevState) : Prop :=
  (cras_bt_device_supports_profile dev CRAS_BT_DEVICE_PROFILE_A2DP_SINK = true
      ∧ cras_bt_device_is_profile_connected dev CRAS_BT_DEVICE_PROFILE_A2DP_SINK = false)
    ∨ (cras_bt_device_supports_profile dev CRAS_BT_DEVICE_PROFILE_HFP_HANDSFREE = true
      ∧ cras_bt_device_is_profile_connected dev
          CRAS_BT_DEVICE_PROFILE_HFP_HANDSFREE = false)

/-- Discriminator for profile-connect requests in the trace. -/
def is_connect_profile : Event → Bool
  | .connect_profile _ _ => true
  | _ => false

/-! ## The policy-list invariant -/

/-- A pending timer's callback argument points at a live policy record whose
stored handle is that timer. -/
def timer_matches (s : PolicyState) (t : ArmedTimer) : Prop :=
  (∀ d, t.cb = TimerCb.profile_switch_delay_cb d →
    ∃ p ∈ s.profile_switch_policies, p.device = d ∧ p.timer = some t.id)
  ∧ (∀ d, t.cb = TimerCb.suspend_cb d →
    ∃ p ∈ s.suspend_policies, p.device = d ∧ p.timer = some t.id)
  ∧ (∀ d, t.cb = TimerCb.conn_watch_cb d →
    ∃ p ∈ s.conn_watch_policies, p.device = d ∧ p.timer = some t.id)

/-- Invariant of the policy state: at most one record per device in each
list, pending timer handles distinct and below the allocator's watermark,
and every pending policy timer pointing back at its record. -/
structure Inv (s : PolicyState) : Prop where
  ps_nodup : (s.profile_switch_policies.map (fun p => p.device)).Nodup
  su_nodup : (s.suspend_policies.map (fun p => p.device)).Nodup
  cw_nodup : (s.conn_watch_policies.map (fun p => p.device)).Nodup
  armed_nodup : (s.tm.armed.map (fun t => t.id)).Nodup
  armed_lt : ∀ t ∈ s.tm.armed, t.id < s.tm.next_id
  armed_matches : ∀ t ∈ s.tm.armed, timer_matches s t

theorem Inv_initial : Inv initial_state := by
  constructor <;> simp [initial_state]

/-! ## Helper lemmas -/

theorem usub_of_le (a b : Nat) (hba : b ≤ a) (ha : a < UINT32_LIMIT) :
    usub a b = a - b := by
  unfold usub UINT32_LIMIT at *
  omega

theorem eraseP_key_eq_filter {α : Type} (key : α → Nat) (l : List α) (d : Nat)
    (h : (l.map key).Nodup) :
    l.eraseP (fun x => key x == d) = l.filter (fun x => key x != d) := by
  induction l with
  | nil => rfl
  | cons x xs ih =>
    simp only [List.map_cons, List.nodup_cons, List.mem_map] at h
    by_cases hx : key x = d
    · rw [List.eraseP_cons_of_pos (by simp [hx]), List.filter_cons_of_neg (by simp [hx])]
      refine (List.filter_eq_self.mpr ?_).symm
      intro a ha
      simp only [bne_iff_ne, ne_eq]
      intro hk
      exact h.1 ⟨a, ha, by rw [hk, hx]⟩
    · rw [List.eraseP_cons_of_neg (by simp [hx]), List.filter_cons_of_pos (by simp [hx])]
      rw [ih h.2]

theorem key_unique {α : Type} (key : α → Nat) (l : List α)
    (h : (l.map key).Nodup) :
    ∀ p ∈ l, ∀ q ∈ l, key p = key q → p = q :=
  fun p hp q hq hk => List.inj_on_of_nodup_map h hp hq hk

theorem find?_key_unique {α : Type} (key : α → Nat) (l : List α) (d : Nat)
    (p0 : α) (h : (l.map key).Nodup)
    (hf : l.find? (fun x => key x == d) = some p0) :
    ∀ p ∈ l, key p = d → p = p0 := by
  intro p hp hpd
  have h0 : p0 ∈ l := List.mem_of_find?_eq_some hf
  have h1 : key p0 = d := by
    have := List.find?_some hf
    simpa using this
  exact key_unique key l h p hp p0 h0 (by rw [hpd, h1])

theorem filter_key_eq_nil {α : Type} (key : α → Nat) (l : List α) (d : Nat)
    (h : ∀ p ∈ l, key p ≠ d) :
    l.filter (fun x => key x == d) = [] := by
  rw [List.filter_eq_nil_iff]
  intro a ha
  simp [h a ha]

theorem filter_bne_keeps_nodup {α : Type} (key : α → Nat) (l : List α)
    (q : α → Bool) (h : (l.map key).Nodup) :
    ((l.filter q).map key).Nodup :=
  ((List.filter_sublist l).map key).nodup h

theorem filter_bne_no_key {α : Type} (key : α → Nat) (l : List α) (d : Nat) :
    ∀ p ∈ l.filter (fun x => key x != d), key p ≠ d := by
  intro p hp
  have := List.of_mem_filter hp
  simpa using this

theorem update_cw_map_device (l : List connection_watch) (d : Nat)
    (f : connection_watch → connection_watch)
    (hf : ∀ p, (f p).device = p.device) :
    (update_cw l d f).map (fun p => p.device) = l.map (fun p => p.device) := by
  induction l with
  | nil => rfl
  | cons x xs ih =>
    simp only [update_cw, List.map_cons] at *
    by_cases hx : x.device = d
    · rw [if_pos hx]
      simp [hf, ih]
    · rw [if_neg hx]
      simp [ih]

theorem update_cw_map_device2 (l : List connection_watch) (d : Nat)
    (g : connection_watch → Int) (t : connection_watch → Option Nat) :
    (update_cw l d (fun p => ⟨p.device, g p, t p⟩)).map (fun p => p.device)
      = l.map (fun p => p.device) := by
  induction l with
  | nil => rfl
  | cons x xs ih =>
    simp only [update_cw, List.map_cons] at *
    by_cases hx : x.device = d
    · rw [if_pos hx]
      simp [ih]
    · rw [if_neg hx]
      simp [ih]

theorem update_cw_filter_self (l : List connection_watch) (d : Nat)
    (f : connection_watch → connection_watch)
    (hf : ∀ p, (f p).device = p.device) :
    (update_cw l d f).filter (fun p => p.device == d)
      = (l.filter (fun p => p.device == d)).map f := by
  induction l with
  | nil => rfl
  | cons x xs ih =>
    simp only [update_cw, List.map_cons] at *
    by_cases hx : x.device = d
    · rw [if_pos hx, List.filter_cons_of_pos (by simp [hf, hx]),
        List.filter_cons_of_pos (by simp [hx])]
      simp [ih]
    · rw [if_neg hx, List.filter_cons_of_neg (by simp [hx]),
        List.filter_cons_of_neg (by simp [hx])]
      exact ih

theorem update_cw_filter_other (l : List connection_watch) (d d' : Nat)
    (f : connection_watch → connection_watch)
    (hf : ∀ p, (f p).device = p.device) (hne : d' ≠ d) :
    (update_cw l d f).filter (fun p => p.device == d')
      = l.filter (fun p => p.device == d') := by
  induction l with
  | nil => rfl
  | cons x xs ih =>
    simp only [update_cw, List.map_cons] at *
    by_cases hx : x.device = d
    · rw [if_pos hx, List.filter_cons_of_neg (by simp [hf, hx]; exact fun h => hne h.symm),
        List.filter_cons_of_neg (by simp [hx]; exact fun h => hne h.symm)]
      exact ih
    · rw [if_neg hx]
      by_cases hx' : x.device = d'
      · rw [List.filter_cons_of_pos (by simp [hx']), List.filter_cons_of_pos (by simp [hx'])]
        simp [ih]
      · rw [List.filter_cons_of_neg (by simp [hx']), List.filter_cons_of_neg (by simp [hx'])]
        exact ih

/-! ## Specialized list facts -/

theorem sus_filter_nil (l : List suspend_policy) (d : Nat)
    (h : ∀ p ∈ l, p.device ≠ d) : l.filter (fun p => p.device == d) = [] :=
  filter_key_eq_nil (fun p => p.device) l d h

theorem psw_filter_nil (l : List profile_switch_policy) (d : Nat)
    (h : ∀ p ∈ l, p.device ≠ d) : l.filter (fun p => p.device == d) = [] :=
  filter_key_eq_nil (fun p => p.device) l d h

theorem cw_filter_nil (l : List connection_watch) (d : Nat)
    (h : ∀ p ∈ l, p.device ≠ d) : l.filter (fun p => p.device == d) = [] :=
  filter_key_eq_nil (fun p => p.device) l d h

theorem sus_eraseP_eq_filter (l : List suspend_policy) (d : Nat)
    (h : (l.map (fun p => p.device)).Nodup) :
    l.eraseP (fun p => p.device == d) = l.filter (fun p => p.device != d) :=
  eraseP_key_eq_filter (fun p => p.device) l d h

theorem psw_eraseP_eq_filter (l : List profile_switch_policy) (d : Nat)
    (h : (l.map (fun p => p.device)).Nodup) :
    l.eraseP (fun p => p.device == d) = l.filter (fun p => p.device != d) :=
  eraseP_key_eq_filter (fun p => p.device) l d h

theorem cw_eraseP_eq_filter (l : List connection_watch) (d : Nat)
    (h : (l.map (fun p => p.device)).Nodup) :
    l.eraseP (fun p => p.device == d) = l.filter (fun p => p.device != d) :=
  eraseP_key_eq_filter (fun p => p.device) l d h

theorem sus_filter_bne_no_key (l : List suspend_policy) (d : Nat) :
    ∀ p ∈ l.filter (fun p => p.device != d), p.device ≠ d :=
  filter_bne_no_key (fun p => p.device) l d

theorem psw_filter_bne_no_key (l : List profile_switch_policy) (d : Nat) :
    ∀ p ∈ l.filter (fun p => p.device != d), p.device ≠ d :=
  filter_bne_no_key (fun p => p.device) l d

theorem cw_filter_bne_no_key (l : List connection_watch) (d : Nat) :
    ∀ p ∈ l.filter (fun p => p.device != d), p.device ≠ d :=
  filter_bne_no_key (fun p => p.device) l d

/-- Under the invariant, no pending timer calls back into the suspend record
of a device that has none. -/
theorem armed_sus_nil (s : PolicyState)
    (hm : ∀ t ∈ s.tm.armed, timer_matches s t) (d : Nat)
    (h : ∀ p ∈ s.suspend_policies, p.device ≠ d) :
    s.tm.armed.filter (fun t => t.cb == TimerCb.suspend_cb d) = [] := by
  rw [List.filter_eq_nil_iff]
  intro t ht
  simp only [beq_iff_eq]
  intro hcb
  obtain ⟨p, hp, hpd, -⟩ := (hm t ht).2.1 d hcb
  exact h p hp hpd

/-- Under the invariant, no pending timer calls back into the profile-switch
record of a device that has none. -/
theorem armed_psw_nil (s : PolicyState)
    (hm : ∀ t ∈ s.tm.armed, timer_matches s t) (d : Nat)
    (h : ∀ p ∈ s.profile_switch_policies, p.device ≠ d) :
    s.tm.armed.filter (fun t => t.cb == TimerCb.profile_switch_delay_cb d) = [] := by
  rw [List.filter_eq_nil_iff]
  intro t ht
  simp only [beq_iff_eq]
  intro hcb
  obtain ⟨p, hp, hpd, -⟩ := (hm t ht).1 d hcb
  exact h p hp hpd

/-- Under the invariant, no pending timer calls back into the
connection-watch record of a device that has none. -/
theorem armed_cw_nil (s : PolicyState)
    (hm : ∀ t ∈ s.tm.armed, timer_matches s t) (d : Nat)
    (h : ∀ p ∈ s.conn_watch_policies, p.device ≠ d) :
    s.tm.armed.filter (fun t => t.cb == TimerCb.conn_watch_cb d) = [] := by
  rw [List.filter_eq_nil_iff]
  intro t ht
  simp only [beq_iff_eq]
  intro hcb
  obtain ⟨p, hp, hpd, -⟩ := (hm t ht).2.2 d hcb
  exact h p hp hpd

/-! ## Branch equations for the policy operations -/

theorem schedule_suspend_of_present (s : PolicyState) (d ms : Nat)
    (r : SuspendReason) (p0 : suspend_policy)
    (hf : s.suspend_policies.find? (fun p => p.device == d) = some p0) :
    schedule_suspend d ms r s = s := by
  unfold schedule_suspend
  rw [hf]

theorem schedule_suspend_of_absent (s : PolicyState) (d ms : Nat)
    (r : SuspendReason)
    (h : ∀ p ∈ s.suspend_policies, p.device ≠ d) :
    schedule_suspend d ms r s
      = { s with
          tm := { now := s.tm.now
                  next_id := s.tm.next_id + 1
                  armed := s.tm.armed
                    ++ [⟨s.tm.next_id, s.tm.now + ms, TimerCb.suspend_cb d⟩] }
          suspend_policies := s.suspend_policies ++ [⟨d, r, some s.tm.next_id⟩] } := by
  unfold schedule_suspend
  rw [List.find?_eq_none.mpr (fun p hp => by simp [h p hp])]
  rfl

theorem cancel_suspend_of_absent (s : PolicyState) (d : Nat)
    (h : s.suspend_policies.find? (fun p => p.device == d) = none) :
    cancel_suspend d s = s := by
  unfold cancel_suspend
  rw [h]

@[simp] theorem create_tm_trace (s : PolicyState) (ms : Nat) (cb : TimerCb) :
    (cras_tm_create_timer s ms cb).1.trace = s.trace := rfl

@[simp] theorem create_tm_sus (s : PolicyState) (ms : Nat) (cb : TimerCb) :
    (cras_tm_create_timer s ms cb).1.suspend_policies = s.suspend_policies := rfl

@[simp] theorem create_tm_psw (s : PolicyState) (ms : Nat) (cb : TimerCb) :
    (cras_tm_create_timer s ms cb).1.profile_switch_policies
      = s.profile_switch_policies := rfl

@[simp] theorem create_tm_cw (s : PolicyState) (ms : Nat) (cb : TimerCb) :
    (cras_tm_create_timer s ms cb).1.conn_watch_policies = s.conn_watch_policies := rfl

@[simp] theorem create_tm_tm (s : PolicyState) (ms : Nat) (cb : TimerCb) :
    (cras_tm_create_timer s ms cb).1.tm
      = { now := s.tm.now
          next_id := s.tm.next_id + 1
          armed := s.tm.armed ++ [⟨s.tm.next_id, s.tm.now + ms, cb⟩] } := rfl

@[simp] theorem create_tm_id (s : PolicyState) (ms : Nat) (cb : TimerCb) :
    (cras_tm_create_timer s ms cb).2 = s.tm.next_id := rfl

@[simp] theorem cancel_tm_sus (s : PolicyState) (t : Option Nat) :
    (cras_tm_cancel_timer s t).suspend_policies = s.suspend_policies := rfl

@[simp] theorem cancel_tm_psw (s : PolicyState) (t : Option Nat) :
    (cras_tm_cancel_timer s t).profile_switch_policies = s.profile_switch_policies := rfl

@[simp] theorem cancel_tm_cw (s : PolicyState) (t : Option Nat) :
    (cras_tm_cancel_timer s t).conn_watch_policies = s.conn_watch_policies := rfl

@[simp] theorem cancel_tm_trace (s : PolicyState) (t : Option Nat) :
    (cras_tm_cancel_timer s t).trace = s.trace := rfl

@[simp] theorem cancel_tm_now (s : PolicyState) (t : Option Nat) :
    (cras_tm_cancel_timer s t).tm.now = s.tm.now := rfl

@[simp] theorem cancel_tm_next_id (s : PolicyState) (t : Option Nat) :
    (cras_tm_cancel_timer s t).tm.next_id = s.tm.next_id := rfl

theorem cancel_tm_armed (s : PolicyState) (t : Option Nat) :
    (cras_tm_cancel_timer s t).tm.armed
      = s.tm.armed.filter (fun a => some a.id ≠ t) := rfl

@[simp] theorem cancel_tm_tm (s : PolicyState) (t : Option Nat) :
    (cras_tm_cancel_timer s t).tm
      = { now := s.tm.now
          next_id := s.tm.next_id
          armed := s.tm.armed.filter (fun a => some a.id ≠ t) } := rfl

theorem cancel_tm_armed_sublist (s : PolicyState) (t : Option Nat) :
    List.Sublist (cras_tm_cancel_timer s t).tm.armed s.tm.armed :=
  List.filter_sublist _

theorem cancel_suspend_of_present (s : PolicyState) (d : Nat)
    (p0 : suspend_policy)
    (hf : s.suspend_policies.find? (fun p => p.device == d) = some p0) :
    cancel_suspend d s
      = { cras_tm_cancel_timer s p0.timer with
          suspend_policies :=
            (cras_tm_cancel_timer s p0.timer).suspend_policies.eraseP
              (fun p => p.device == d) } := by
  unfold cancel_suspend
  rw [hf]

/-- `cancel_suspend` leaves the device with no suspend record and does not
touch the other lists, the clock, the handle allocator, or the trace. -/
theorem cancel_suspend_clears (s : PolicyState) (d : Nat)
    (hnd : (s.suspend_policies.map (fun p => p.device)).Nodup) :
    (∀ p ∈ (cancel_suspend d s).suspend_policies, p.device ≠ d)
      ∧ (cancel_suspend d s).profile_switch_policies = s.profile_switch_policies
      ∧ (cancel_suspend d s).conn_watch_policies = s.conn_watch_policies
      ∧ (cancel_suspend d s).tm.now = s.tm.now
      ∧ (cancel_suspend d s).tm.next_id = s.tm.next_id
      ∧ (cancel_suspend d s).trace = s.trace := by
  cases hf : s.suspend_policies.find? (fun p => p.device == d) with
  | none =>
    rw [cancel_suspend_of_absent s d hf]
    refine ⟨fun p hp => ?_, rfl, rfl, rfl, rfl, rfl⟩
    have := List.find?_eq_none.mp hf p hp
    simpa using this
  | some p0 =>
    rw [cancel_suspend_of_present s d p0 hf]
    refine ⟨fun p hp => ?_, by simp, by simp, by simp, by simp, by simp⟩
    simp only [cancel_tm_sus] at hp
    rw [sus_eraseP_eq_filter _ _ hnd] at hp
    exact sus_filter_bne_no_key _ _ p hp

/-! ## Claims about the volume/gain helpers -/

/-- C1: for every system volume V in [0,100] and node volume N in [0,100],
`cras_iodev_adjust_node_volume(node, V)` equals `max(0, V − (100 − N))`;
in particular N=100 yields V and V=0 yields 0. -/
theorem C1_adjust_node_volume (node : cras_ionode) (V : Nat)
    (hN : node.volume ≤ 100) (hV : V ≤ 100) :
    (cras_iodev_adjust_node_volume node V : Int)
        = max 0 ((V : Int) - ((100 : Int) - (node.volume : Int)))
      ∧ (node.volume = 100 → cras_iodev_adjust_node_volume node V = V)
      ∧ (V = 0 → cras_iodev_adjust_node_volume node V = 0) := by
  have hM : (100 : Nat) < UINT32_LIMIT := by norm_num [UINT32_LIMIT]
  have hVM : V < UINT32_LIMIT := lt_of_le_of_lt hV hM
  have h1 : usub 100 node.volume = 100 - node.volume := usub_of_le _ _ hN hM
  have h2 : V % UINT32_LIMIT = V := Nat.mod_eq_of_lt hVM
  have key : (cras_iodev_adjust_node_volume node V : Int)
      = max 0 ((V : Int) - ((100 : Int) - (node.volume : Int))) := by
    unfold cras_iodev_adjust_node_volume
    simp only [h1, h2]
    by_cases hc : 100 - node.volume < V
    · rw [if_pos hc, usub_of_le _ _ (le_of_lt hc) hVM]
      omega
    · rw [if_neg hc]
      omega
  refine ⟨key, fun h100 => ?_, fun h0 => ?_⟩
  · have := key
    rw [h100] at this
    omega
  · have := key
    rw [h0] at this
    omega

/-- Witness for C1 at V=70, N=50 (spec scenario: effective volume 20). -/
theorem C1_adjust_node_volume_witness :
    ((cras_iodev_adjust_node_volume ⟨50, 0⟩ 70 : Int)
        = max 0 ((70 : Int) - ((100 : Int) - ((50 : Nat) : Int)))
      ∧ ((50 : Nat) = 100 → cras_iodev_adjust_node_volume ⟨50, 0⟩ 70 = 70)
      ∧ ((70 : Nat) = 0 → cras_iodev_adjust_node_volume ⟨50, 0⟩ 70 = 0)) :=
  C1_adjust_node_volume ⟨50, 0⟩ 70 (by norm_num) (by norm_num)

/-- C10: when `active_node` is NULL, `cras_iodev_adjust_active_node_volume`
returns the system volume unchanged and `cras_iodev_adjust_active_node_gain`
returns the system gain unchanged. -/
theorem C10_active_node_null (iodev : cras_iodev) (system_volume : Nat)
    (system_gain : Int) (h : iodev.active_node = none) :
    cras_iodev_adjust_active_node_volume iodev system_volume = system_volume
      ∧ cras_iodev_adjust_active_node_gain iodev system_gain = system_gain := by
  simp [cras_iodev_adjust_active_node_volume, cras_iodev_adjust_active_node_gain, h]

theorem find?_eq_of_mem_nodup {α : Type} (key : α → Nat) (l : List α)
    (d : Nat) (p : α) (hnd : (l.map key).Nodup) (hp : p ∈ l) (hpd : key p = d) :
    l.find? (fun x => key x == d) = some p := by
  obtain ⟨q, hq⟩ : ∃ q, l.find? (fun x => key x == d) = some q := by
    rw [← Option.isSome_iff_exists, List.find?_isSome]
    exact ⟨p, hp, by simp [hpd]⟩
  rw [hq]
  have hqd : key q = d := by simpa using List.find?_some hq
  have := key_unique key l hnd q (List.mem_of_find?_eq_some hq) p hp (by simp [hqd, hpd])
  rw [this]

theorem find?_armed_id (s : PolicyState)
    (hnd : (s.tm.armed.map (fun t => t.id)).Nodup) (t : ArmedTimer)
    (ht : t ∈ s.tm.armed) :
    s.tm.armed.find? (fun a => a.id == t.id) = some t :=
  find?_eq_of_mem_nodup (fun a => a.id) s.tm.armed t.id t hnd ht rfl

/-- Reduce a fire of an armed timer to its callback on the post-removal
state. -/
theorem fire_timer_id_eq (s : PolicyState) (t : ArmedTimer) (dev : DevState)
    (hnd : (s.tm.armed.map (fun t => t.id)).Nodup) (ht : t ∈ s.tm.armed) :
    fire_timer_id t.id dev s
      = dispatch_cb t.cb dev
          { s with
            tm := { now := t.deadline
                    next_id := s.tm.next_id
                    armed := s.tm.armed.eraseP (fun a => a.id == t.id) } } := by
  unfold fire_timer_id
  rw [find?_armed_id s hnd t ht]

/-- Under the invariant, every pending suspend timer of device `d` carries
the handle stored in `d`'s (unique) suspend record. -/
theorem armed_sus_all_id (s : PolicyState) (hInv : Inv s) (d : Nat)
    (p : suspend_policy) (hp : p ∈ s.suspend_policies) (hpd : p.device = d) :
    ∀ u ∈ s.tm.armed, u.cb = TimerCb.suspend_cb d → p.timer = some u.id := by
  intro u hu hcb
  obtain ⟨q, hq, hqd, hqt⟩ := (hInv.armed_matches u hu).2.1 d hcb
  have : q = p := key_unique (fun p => p.device) _ hInv.su_nodup q hq p hp (by simp [hqd, hpd])
  rw [← this, hqt]

/-- Under the invariant, every pending profile-switch timer of device `d`
carries the handle stored in `d`'s (unique) profile-switch record. -/
theorem armed_psw_all_id (s : PolicyState) (hInv : Inv s) (d : Nat)
    (p : profile_switch_policy) (hp : p ∈ s.profile_switch_policies)
    (hpd : p.device = d) :
    ∀ u ∈ s.tm.armed, u.cb = TimerCb.profile_switch_delay_cb d → p.timer = some u.id := by
  intro u hu hcb
  obtain ⟨q, hq, hqd, hqt⟩ := (hInv.armed_matches u hu).1 d hcb
  have : q = p := key_unique (fun p => p.device) _ hInv.ps_nodup q hq p hp (by simp [hqd, hpd])
  rw [← this, hqt]

/-- Under the invariant, every pending connection-watch timer of device `d`
carries the handle stored in `d`'s (unique) connection-watch record. -/
theorem armed_cw_all_id (s : PolicyState) (hInv : Inv s) (d : Nat)
    (p : connection_watch) (hp : p ∈ s.conn_watch_policies) (hpd : p.device = d) :
    ∀ u ∈ s.tm.armed, u.cb = TimerCb.conn_watch_cb d → p.timer = some u.id := by
  intro u hu hcb
  obtain ⟨q, hq, hqd, hqt⟩ := (hInv.armed_matches u hu).2.2 d hcb
  have : q = p := key_unique (fun p => p.device) _ hInv.cw_nodup q hq p hp (by simp [hqd, hpd])
  rw [← this, hqt]

theorem armed_eraseP_eq_filter (s : PolicyState)
    (hnd : (s.tm.armed.map (fun t => t.id)).Nodup) (tid : Nat) :
    s.tm.armed.eraseP (fun a => a.id == tid)
      = s.tm.armed.filter (fun a => a.id != tid) :=
  eraseP_key_eq_filter (fun a => a.id) s.tm.armed tid hnd

@[simp] theorem emit_trace (e : Event) (s : PolicyState) :
    (emit e s).trace = s.trace ++ [e] := rfl

@[simp] theorem emit_sus (e : Event) (s : PolicyState) :
    (emit e s).suspend_policies = s.suspend_policies := rfl

@[simp] theorem emit_psw (e : Event) (s : PolicyState) :
    (emit e s).profile_switch_policies = s.profile_switch_policies := rfl

@[simp] theorem emit_cw (e : Event) (s : PolicyState) :
    (emit e s).conn_watch_policies = s.conn_watch_policies := rfl

@[simp] theorem emit_tm (e : Event) (s : PolicyState) :
    (emit e s).tm = s.tm := rfl

@[simp] theorem emit_many_trace (es : List Event) (s : PolicyState) :
    (emit_many es s).trace = s.trace ++ es := rfl

@[simp] theorem emit_many_sus (es : List Event) (s : PolicyState) :
    (emit_many es s).suspend_policies = s.suspend_policies := rfl

@[simp] theorem emit_many_psw (es : List Event) (s : PolicyState) :
    (emit_many es s).profile_switch_policies = s.profile_switch_policies := rfl

@[simp] theorem emit_many_cw (es : List Event) (s : PolicyState) :
    (emit_many es s).conn_watch_policies = s.conn_watch_policies := rfl

@[simp] theorem emit_many_tm (es : List Event) (s : PolicyState) :
    (emit_many es s).tm = s.tm := rfl

theorem Inv_emit_many (es : List Event) (s : PolicyState) (hInv : Inv s) :
    Inv (emit_many es s) :=
  ⟨hInv.ps_nodup, hInv.su_nodup, hInv.cw_nodup, hInv.armed_nodup,
    hInv.armed_lt, hInv.armed_matches⟩

/-! ## Invariant preservation -/

theorem timer_matches_mono (s s' : PolicyState) (t : ArmedTimer)
    (hid : s'.tm = s'.tm)
    (hps : ∀ p ∈ s.profile_switch_policies, p ∈ s'.profile_switch_policies)
    (hsu : ∀ p ∈ s.suspend_policies, p ∈ s'.suspend_policies)
    (hcw : ∀ p ∈ s.conn_watch_policies, p ∈ s'.conn_watch_policies)
    (h : timer_matches s t) : timer_matches s' t := by
  obtain ⟨h1, h2, h3⟩ := h
  refine ⟨fun d hd => ?_, fun d hd => ?_, fun d hd => ?_⟩
  · obtain ⟨p, hp, hh⟩ := h1 d hd
    exact ⟨p, hps p hp, hh⟩
  · obtain ⟨p, hp, hh⟩ := h2 d hd
    exact ⟨p, hsu p hp, hh⟩
  · obtain ⟨p, hp, hh⟩ := h3 d hd
    exact ⟨p, hcw p hp, hh⟩

theorem Inv_schedule_suspend (s : PolicyState) (d ms : Nat) (r : SuspendReason)
    (hInv : Inv s) : Inv (schedule_suspend d ms r s) := by
  cases hf : s.suspend_policies.find? (fun p => p.device == d) with
  | some p0 =>
    rw [schedule_suspend_of_present _ _ _ _ p0 hf]
    exact hInv
  | none =>
    have habsent : ∀ p ∈ s.suspend_policies, p.device ≠ d := fun p hp => by
      simpa using List.find?_eq_none.mp hf p hp
    rw [schedule_suspend_of_absent _ _ _ _ habsent]
    constructor
    · exact hInv.ps_nodup
    · simp only [List.map_append, List.map_cons, List.map_nil]
      refine List.Nodup.append hInv.su_nodup (List.nodup_singleton d)
        (List.disjoint_left.mpr ?_)
      intro a ha
      simp only [List.mem_map] at ha
      obtain ⟨p, hp, hpa⟩ := ha
      simp only [List.mem_singleton]
      rw [← hpa]
      exact habsent p hp
    · exact hInv.cw_nodup
    · simp only [List.map_append, List.map_cons, List.map_nil]
      refine List.Nodup.append hInv.armed_nodup (List.nodup_singleton _)
        (List.disjoint_left.mpr ?_)
      intro a ha
      simp only [List.mem_map] at ha
      obtain ⟨t, ht, hta⟩ := ha
      simp only [List.mem_singleton]
      rw [← hta]
      exact Nat.ne_of_lt (hInv.armed_lt t ht)
    · intro t ht
      simp only [List.mem_append, List.mem_singleton] at ht
      rcases ht with ht | ht
      · exact Nat.lt_succ_of_lt (hInv.armed_lt t ht)
      · rw [ht]
        exact Nat.lt_succ_self _
    · intro t ht
      simp only [List.mem_append, List.mem_singleton] at ht
      rcases ht with ht | ht
      · refine timer_matches_mono s _ t rfl (fun p hp => hp)
          (fun p hp => by simp [hp]) (fun p hp => hp) (hInv.armed_matches t ht)
      · subst ht
        refine ⟨fun d' hd' => by simp at hd', fun d' hd' => ?_, fun d' hd' => by simp at hd'⟩
        have : d = d' := by
          simpa using hd'
        subst this
        exact ⟨⟨d, r, some s.tm.next_id⟩, by simp, rfl, rfl⟩

theorem Inv_cancel_suspend (s : PolicyState) (d : Nat) (hInv : Inv s) :
    Inv (cancel_suspend d s) := by
  cases hf : s.suspend_policies.find? (fun p => p.device == d) with
  | none =>
    rw [cancel_suspend_of_absent s d hf]
    exact hInv
  | some p0 =>
    have hp0 : p0 ∈ s.suspend_policies := List.mem_of_find?_eq_some hf
    have hp0d : p0.device = d := by simpa using List.find?_some hf
    rw [cancel_suspend_of_present s d p0 hf]
    simp only [cancel_tm_tm, cancel_tm_sus, cancel_tm_psw, cancel_tm_cw, cancel_tm_trace]
    have hsub : List.Sublist
        (s.tm.armed.filter (fun a => some a.id ≠ p0.timer)) s.tm.armed :=
      List.filter_sublist _
    constructor
    · exact hInv.ps_nodup
    · exact ((List.eraseP_sublist s.suspend_policies).map
        (fun p : suspend_policy => p.device)).nodup hInv.su_nodup
    · exact hInv.cw_nodup
    · exact (hsub.map (fun t => t.id)).nodup hInv.armed_nodup
    · intro t ht
      exact hInv.armed_lt t (hsub.subset ht)
    · intro t ht
      have htm : t ∈ s.tm.armed := hsub.subset ht
      have htk : some t.id ≠ p0.timer := by
        have := List.of_mem_filter ht
        simpa using this
      obtain ⟨h1, h2, h3⟩ := hInv.armed_matches t htm
      refine ⟨h1, fun d' hd' => ?_, h3⟩
      obtain ⟨q, hq, hqd, hqt⟩ := h2 d' hd'
      by_cases hdd : d' = d
      · exact absurd (armed_sus_all_id s hInv d' p0 hp0 (by rw [hp0d, hdd]) t htm hd').symm htk
      · refine ⟨q, ?_, hqd, hqt⟩
        rw [sus_eraseP_eq_filter _ _ hInv.su_nodup, List.mem_filter]
        exact ⟨hq, by simp [hqd, hdd]⟩

theorem find?_append_of_none {α : Type} (l1 l2 : List α) (p : α → Bool)
    (h : l1.find? p = none) : (l1 ++ l2).find? p = l2.find? p := by
  rw [List.find?_append, h]
  rfl

theorem filter_key_of_mem_nodup {α : Type} (key : α → Nat) (l : List α)
    (d : Nat) (p0 : α) (hnd : (l.map key).Nodup) (hp : p0 ∈ l)
    (hpd : key p0 = d) : l.filter (fun x => key x == d) = [p0] := by
  induction l with
  | nil => cases hp
  | cons x xs ih =>
    simp only [List.map_cons, List.nodup_cons, List.mem_map] at hnd
    rcases List.mem_cons.mp hp with hx | hx
    · subst hx
      rw [List.filter_cons_of_pos (by simp [hpd])]
      rw [filter_key_eq_nil key xs d]
      intro q hq hqd
      exact hnd.1 ⟨q, hq, by rw [hqd, hpd]⟩
    · have hxd : key x ≠ d := by
        intro hk
        exact hnd.1 ⟨p0, hx, by rw [hpd, hk]⟩
      rw [List.filter_cons_of_neg (by simp [hxd])]
      exact ih hnd.2 hx

theorem mem_update_cw_of_ne (l : List connection_watch) (d : Nat)
    (f : connection_watch → connection_watch) (q : connection_watch)
    (hq : q ∈ l) (hne : q.device ≠ d) : q ∈ update_cw l d f := by
  unfold update_cw
  rw [List.mem_map]
  exact ⟨q, hq, by rw [if_neg hne]⟩

theorem mem_update_cw_self (l : List connection_watch) (d : Nat)
    (f : connection_watch → connection_watch) (p : connection_watch)
    (hp : p ∈ l) (hpd : p.device = d) : f p ∈ update_cw l d f := by
  unfold update_cw
  rw [List.mem_map]
  exact ⟨p, hp, by rw [if_pos hpd]⟩

theorem find?_of_filter_singleton {α : Type} (l : List α) (p : α → Bool) (a : α)
    (h : l.filter p = [a]) : l.find? p = some a := by
  induction l with
  | nil => simp at h
  | cons x xs ih =>
    by_cases hx : p x
    · rw [List.filter_cons_of_pos hx] at h
      rw [List.find?_cons_of_pos _ hx]
      rw [List.cons.injEq] at h
      rw [h.1]
    · rw [List.filter_cons_of_neg hx] at h
      rw [List.find?_cons_of_neg _ hx]
      exact ih h

/-! ## Claim C2: suspend scheduling is idempotent per device -/

/-- C2: starting from a state with no pending suspend for device `d`, two
back-to-back `schedule_suspend` calls leave exactly one pending suspend
record with one pending timer, and the stored reason is the first call's
reason; `cancel_suspend` followed by `schedule_suspend` also leaves exactly
one pending suspend record. -/
theorem C2_schedule_suspend_idempotent (s : PolicyState) (d m1 m2 : Nat)
    (r1 r2 : SuspendReason) (hInv : Inv s)
    (habsent : ∀ p ∈ s.suspend_policies, p.device ≠ d) :
    sus_for (schedule_suspend d m2 r2 (schedule_suspend d m1 r1 s)) d
        = [⟨d, r1, some s.tm.next_id⟩]
      ∧ armed_for (schedule_suspend d m2 r2 (schedule_suspend d m1 r1 s))
          (TimerCb.suspend_cb d)
        = [⟨s.tm.next_id, s.tm.now + m1, TimerCb.suspend_cb d⟩]
      ∧ sus_for (schedule_suspend d m2 r2 (cancel_suspend d s)) d
        = [⟨d, r2, some s.tm.next_id⟩] := by
  have h1 := schedule_suspend_of_absent s d m1 r1 habsent
  obtain ⟨p0, hf⟩ : ∃ p0, (schedule_suspend d m1 r1 s).suspend_policies.find?
      (fun p => p.device == d) = some p0 := by
    rw [← Option.isSome_iff_exists, List.find?_isSome]
    exact ⟨⟨d, r1, some s.tm.next_id⟩, by rw [h1]; simp, by simp⟩
  rw [schedule_suspend_of_present _ _ _ _ p0 hf]
  obtain ⟨hc1, hc2, hc3, hc4, hc5, hc6⟩ := cancel_suspend_clears s d hInv.su_nodup
  refine ⟨?_, ?_, ?_⟩
  · unfold sus_for
    rw [h1]
    simp only [List.filter_append, sus_filter_nil _ _ habsent]
    simp
  · unfold armed_for
    rw [h1]
    simp only [List.filter_append, armed_sus_nil s hInv.armed_matches d habsent]
    simp
  · rw [schedule_suspend_of_absent _ _ _ _ hc1]
    unfold sus_for
    simp only [List.filter_append, sus_filter_nil _ _ hc1, hc5]
    simp

/-- Witness for C2: from the pristine state, schedule twice with different
reasons, and cancel-then-schedule. -/
theorem C2_schedule_suspend_idempotent_witness :
    sus_for
        (schedule_suspend 0 200 SuspendReason.HFP_SCO_SOCKET_ERROR
          (schedule_suspend 0 100 SuspendReason.A2DP_LONG_TX_FAILURE initial_state)) 0
        = [⟨0, SuspendReason.A2DP_LONG_TX_FAILURE, some initial_state.tm.next_id⟩]
      ∧ armed_for
          (schedule_suspend 0 200 SuspendReason.HFP_SCO_SOCKET_ERROR
            (schedule_suspend 0 100 SuspendReason.A2DP_LONG_TX_FAILURE initial_state))
          (TimerCb.suspend_cb 0)
        = [⟨initial_state.tm.next_id, initial_state.tm.now + 100, TimerCb.suspend_cb 0⟩]
      ∧ sus_for
          (schedule_suspend 0 200 SuspendReason.HFP_SCO_SOCKET_ERROR
            (cancel_suspend 0 initial_state)) 0
        = [⟨0, SuspendReason.HFP_SCO_SOCKET_ERROR, some initial_state.tm.next_id⟩] :=
  C2_schedule_suspend_idempotent initial_state 0 100 200
    SuspendReason.A2DP_LONG_TX_FAILURE SuspendReason.HFP_SCO_SOCKET_ERROR
    Inv_initial (by simp [initial_state])

/-! ## Characterization of starting a connection watch -/

theorem start_cw_of_absent (s : PolicyState) (d : Nat)
    (h : ∀ p ∈ s.conn_watch_policies, p.device ≠ d) :
    cras_bt_policy_start_connection_watch d s
      = { s with
          tm := { now := s.tm.now
                  next_id := s.tm.next_id + 1
                  armed := s.tm.armed
                    ++ [⟨s.tm.next_id, s.tm.now + CONN_WATCH_PERIOD_MS,
                        TimerCb.conn_watch_cb d⟩] }
          conn_watch_policies := s.conn_watch_policies
            ++ [⟨d, CONN_WATCH_MAX_RETRIES, some s.tm.next_id⟩] } := by
  unfold cras_bt_policy_start_connection_watch
  rw [List.find?_eq_none.mpr (fun p hp => by simp [h p hp])]
  rfl

theorem start_cw_of_present (s : PolicyState) (d : Nat) (p0 : connection_watch)
    (hf : s.conn_watch_policies.find? (fun p => p.device == d) = some p0) :
    cras_bt_policy_start_connection_watch d s
      = { s with
          tm := { now := s.tm.now
                  next_id := s.tm.next_id + 1
                  armed := s.tm.armed.filter (fun a => some a.id ≠ p0.timer)
                    ++ [⟨s.tm.next_id, s.tm.now + CONN_WATCH_PERIOD_MS,
                        TimerCb.conn_watch_cb d⟩] }
          conn_watch_policies := update_cw s.conn_watch_policies d
            (fun p => { p with
                        retries_left := CONN_WATCH_MAX_RETRIES
                        timer := some s.tm.next_id }) } := by
  unfold cras_bt_policy_start_connection_watch
  rw [hf]
  rfl

theorem Inv_start_connection_watch (s : PolicyState) (d : Nat) (hInv : Inv s) :
    Inv (cras_bt_policy_start_connection_watch d s) := by
  cases hf : s.conn_watch_policies.find? (fun p => p.device == d) with
  | none =>
    have habsent : ∀ p ∈ s.conn_watch_policies, p.device ≠ d := fun p hp => by
      simpa using List.find?_eq_none.mp hf p hp
    rw [start_cw_of_absent s d habsent]
    constructor
    · exact hInv.ps_nodup
    · exact hInv.su_nodup
    · simp only [List.map_append, List.map_cons, List.map_nil]
      refine List.Nodup.append hInv.cw_nodup (List.nodup_singleton d)
        (List.disjoint_left.mpr ?_)
      intro a ha
      simp only [List.mem_map] at ha
      obtain ⟨p, hp, hpa⟩ := ha
      simp only [List.mem_singleton]
      rw [← hpa]
      exact habsent p hp
    · simp only [List.map_append, List.map_cons, List.map_nil]
      refine List.Nodup.append hInv.armed_nodup (List.nodup_singleton _)
        (List.disjoint_left.mpr ?_)
      intro a ha
      simp only [List.mem_map] at ha
      obtain ⟨t, ht, hta⟩ := ha
      simp only [List.mem_singleton]
      rw [← hta]
      exact Nat.ne_of_lt (hInv.armed_lt t ht)
    · intro t ht
      simp only [List.mem_append, List.mem_singleton] at ht
      rcases ht with ht | ht
      · exact Nat.lt_succ_of_lt (hInv.armed_lt t ht)
      · rw [ht]
        exact Nat.lt_succ_self _
    · intro t ht
      simp only [List.mem_append, List.mem_singleton] at ht
      rcases ht with ht | ht
      · refine timer_matches_mono s _ t rfl (fun p hp => hp) (fun p hp => hp)
          (fun p hp => by simp [hp]) (hInv.armed_matches t ht)
      · subst ht
        refine ⟨fun d' hd' => by simp at hd', fun d' hd' => by simp at hd',
          fun d' hd' => ?_⟩
        have : d = d' := by simpa using hd'
        subst this
        exact ⟨⟨d, CONN_WATCH_MAX_RETRIES, some s.tm.next_id⟩, by simp, rfl, rfl⟩
  | some p0 =>
    have hp0 : p0 ∈ s.conn_watch_policies := List.mem_of_find?_eq_some hf
    have hp0d : p0.device = d := by simpa using List.find?_some hf
    rw [start_cw_of_present s d p0 hf]
    have hsub : List.Sublist
        (s.tm.armed.filter (fun a => some a.id ≠ p0.timer)) s.tm.armed :=
      List.filter_sublist _
    constructor
    · exact hInv.ps_nodup
    · exact hInv.su_nodup
    · show (List.map (fun p => p.device)
        (update_cw s.conn_watch_policies d
          (fun p => { p with
                      retries_left := CONN_WATCH_MAX_RETRIES
                      timer := some s.tm.next_id }))).Nodup
      rw [update_cw_map_device s.conn_watch_policies d
        (fun p => { p with
                    retries_left := CONN_WATCH_MAX_RETRIES
                    timer := some s.tm.next_id }) (fun p => rfl)]
      exact hInv.cw_nodup
    · simp only [List.map_append, List.map_cons, List.map_nil]
      refine List.Nodup.append ((hsub.map (fun t => t.id)).nodup hInv.armed_nodup)
        (List.nodup_singleton _) (List.disjoint_left.mpr ?_)
      intro a ha
      simp only [List.mem_map] at ha
      obtain ⟨t, ht, hta⟩ := ha
      simp only [List.mem_singleton]
      rw [← hta]
      exact Nat.ne_of_lt (hInv.armed_lt t (hsub.subset ht))
    · intro t ht
      simp only [List.mem_append, List.mem_singleton] at ht
      rcases ht with ht | ht
      · exact Nat.lt_succ_of_lt (hInv.armed_lt t (hsub.subset ht))
      · rw [ht]
        exact Nat.lt_succ_self _
    · intro t ht
      simp only [List.mem_append, List.mem_singleton] at ht
      rcases ht with ht | ht
      · have htm : t ∈ s.tm.armed := hsub.subset ht
        have htk : some t.id ≠ p0.timer := by
          have := List.of_mem_filter ht
          simpa using this
        obtain ⟨h1, h2, h3⟩ := hInv.armed_matches t htm
        refine ⟨h1, h2, fun d' hd' => ?_⟩
        obtain ⟨q, hq, hqd, hqt⟩ := h3 d' hd'
        by_cases hdd : d' = d
        · exact absurd
            (armed_cw_all_id s hInv d' p0 hp0 (by rw [hp0d, hdd]) t htm hd').symm htk
        · exact ⟨q, mem_update_cw_of_ne _ _ _ q hq (by rw [hqd]; exact hdd), hqd, hqt⟩
      · subst ht
        refine ⟨fun d' hd' => by simp at hd', fun d' hd' => by simp at hd',
          fun d' hd' => ?_⟩
        have : d = d' := by simpa using hd'
        subst this
        refine ⟨{ p0 with
                  retries_left := CONN_WATCH_MAX_RETRIES
                  timer := some s.tm.next_id },
          mem_update_cw_self _ _ _ p0 hp0 hp0d, hp0d, rfl⟩

/-- Bundled effect of `cras_bt_policy_start_connection_watch`: the device has
exactly one watch record, reset to 30 retries and pointing at exactly one
fresh 2000 ms timer; nothing else changes. -/
theorem start_cw_spec (s : PolicyState) (d : Nat) (hInv : Inv s) :
    cw_for (cras_bt_policy_start_connection_watch d s) d
        = [⟨d, CONN_WATCH_MAX_RETRIES, some s.tm.next_id⟩]
      ∧ armed_for (cras_bt_policy_start_connection_watch d s) (TimerCb.conn_watch_cb d)
        = [⟨s.tm.next_id, s.tm.now + CONN_WATCH_PERIOD_MS, TimerCb.conn_watch_cb d⟩]
      ∧ (cras_bt_policy_start_connection_watch d s).suspend_policies = s.suspend_policies
      ∧ (cras_bt_policy_start_connection_watch d s).tm.now = s.tm.now
      ∧ (cras_bt_policy_start_connection_watch d s).tm.next_id = s.tm.next_id + 1
      ∧ (cras_bt_policy_start_connection_watch d s).trace = s.trace := by
  cases hf : s.conn_watch_policies.find? (fun p => p.device == d) with
  | none =>
    have habsent : ∀ p ∈ s.conn_watch_policies, p.device ≠ d := fun p hp => by
      simpa using List.find?_eq_none.mp hf p hp
    rw [start_cw_of_absent s d habsent]
    refine ⟨?_, ?_, rfl, rfl, rfl, rfl⟩
    · unfold cw_for
      simp only [List.filter_append, cw_filter_nil _ _ habsent]
      simp
    · unfold armed_for
      simp only [List.filter_append, armed_cw_nil s hInv.armed_matches d habsent]
      simp
  | some p0 =>
    have hp0 : p0 ∈ s.conn_watch_policies := List.mem_of_find?_eq_some hf
    have hp0d : p0.device = d := by simpa using List.find?_some hf
    rw [start_cw_of_present s d p0 hf]
    refine ⟨?_, ?_, rfl, rfl, rfl, rfl⟩
    · show (update_cw s.conn_watch_policies d
          (fun p => { p with
                      retries_left := CONN_WATCH_MAX_RETRIES
                      timer := some s.tm.next_id })).filter (fun p => p.device == d)
        = [⟨d, CONN_WATCH_MAX_RETRIES, some s.tm.next_id⟩]
      rw [update_cw_filter_self s.conn_watch_policies d
        (fun p => { p with
                    retries_left := CONN_WATCH_MAX_RETRIES
                    timer := some s.tm.next_id }) (fun p => rfl),
        filter_key_of_mem_nodup (fun p => p.device) _ d p0 hInv.cw_nodup hp0 hp0d]
      simp [hp0d]
    · show (s.tm.armed.filter (fun a => some a.id ≠ p0.timer)
          ++ [(⟨s.tm.next_id, s.tm.now + CONN_WATCH_PERIOD_MS,
              TimerCb.conn_watch_cb d⟩ : ArmedTimer)]).filter
            (fun t => t.cb == TimerCb.conn_watch_cb d)
        = [(⟨s.tm.next_id, s.tm.now + CONN_WATCH_PERIOD_MS,
            TimerCb.conn_watch_cb d⟩ : ArmedTimer)]
      rw [List.filter_append]
      have : (s.tm.armed.filter (fun a => some a.id ≠ p0.timer)).filter
          (fun t => t.cb == TimerCb.conn_watch_cb d) = [] := by
        rw [List.filter_eq_nil_iff]
        intro u hu
        simp only [beq_iff_eq]
        intro hucb
        have hum : u ∈ s.tm.armed := List.mem_of_mem_filter hu
        have hune : some u.id ≠ p0.timer := by
          have := List.of_mem_filter hu
          simpa using this
        exact hune (armed_cw_all_id s hInv d p0 hp0 hp0d u hum hucb).symm
      rw [this]
      simp

/-- Reduce `fire_conn_watch` to the callback when the device has exactly one
pending connection-watch timer. -/
theorem fire_conn_watch_eq (s : PolicyState) (d : Nat) (dev : DevState)
    (tid dl : Nat) (hInv : Inv s)
    (hone : armed_for s (TimerCb.conn_watch_cb d)
      = [⟨tid, dl, TimerCb.conn_watch_cb d⟩]) :
    fire_conn_watch d dev s
      = conn_watch_cb d dev
          { s with
            tm := { now := dl
                    next_id := s.tm.next_id
                    armed := s.tm.armed.eraseP (fun a => a.id == tid) } } := by
  unfold armed_for at hone
  have hTmemf : (⟨tid, dl, TimerCb.conn_watch_cb d⟩ : ArmedTimer)
      ∈ s.tm.armed.filter (fun t => t.cb == TimerCb.conn_watch_cb d) := by
    rw [hone]
    exact List.mem_singleton_self _
  have hTmem : (⟨tid, dl, TimerCb.conn_watch_cb d⟩ : ArmedTimer) ∈ s.tm.armed :=
    List.mem_of_mem_filter hTmemf
  unfold fire_conn_watch
  rw [find?_of_filter_singleton _ _ _ hone]
  show fire_timer_id tid dev s = _
  have := fire_timer_id_eq s ⟨tid, dl, TimerCb.conn_watch_cb d⟩ dev
    hInv.armed_nodup hTmem
  rw [this]
  rfl

/-- The `!device->profiles` branch of `conn_watch_cb`: log, then delete and
free the record; nothing else happens. -/
theorem conn_watch_cb_empty (s : PolicyState) (d : Nat) (dev : DevState)
    (p0 : connection_watch)
    (hf : s.conn_watch_policies.find? (fun p => p.device == d) = some p0)
    (hprof : dev.profiles = 0) :
    conn_watch_cb d dev s
      = { s with
          conn_watch_policies :=
            (update_cw s.conn_watch_policies d (fun p => { p with timer := none })).eraseP
              (fun p => p.device == d)
          trace := s.trace ++ [Event.btlog_conn_watch_cb p0.retries_left dev.profiles] } := by
  unfold conn_watch_cb
  rw [hf]
  simp [hprof, emit]

/-! ## Claim C7: connection watch for a device with no profiles -/

/-- C7: starting a connection watch for a device whose profiles bitmask is
empty leads, on the first tick, to the watch record being deleted and freed,
with no suspend scheduled, no timer re-armed, and no collaborator call other
than the BTLOG entry (in particular no profile-connect request). -/
theorem C7_conn_watch_no_profiles (s : PolicyState) (d : Nat) (dev : DevState)
    (hInv : Inv s) (hprof : dev.profiles = 0) :
    cw_for (fire_conn_watch d dev (cras_bt_policy_start_connection_watch d s)) d = []
      ∧ (fire_conn_watch d dev (cras_bt_policy_start_connection_watch d s)).suspend_policies
        = s.suspend_policies
      ∧ armed_for (fire_conn_watch d dev (cras_bt_policy_start_connection_watch d s))
          (TimerCb.conn_watch_cb d) = []
      ∧ (fire_conn_watch d dev (cras_bt_policy_start_connection_watch d s)).trace
        = s.trace ++ [Event.btlog_conn_watch_cb CONN_WATCH_MAX_RETRIES dev.profiles] := by
  obtain ⟨hcw1, hcw2, hcw3, hcw4, hcw5, hcw6⟩ := start_cw_spec s d hInv
  have hInv1 := Inv_start_connection_watch s d hInv
  have heq := fire_conn_watch_eq (cras_bt_policy_start_connection_watch d s) d dev
    s.tm.next_id (s.tm.now + CONN_WATCH_PERIOD_MS) hInv1 hcw2
  rw [heq]
  have hfind : (cras_bt_policy_start_connection_watch d s).conn_watch_policies.find?
      (fun p => p.device == d)
      = some ⟨d, CONN_WATCH_MAX_RETRIES, some s.tm.next_id⟩ := by
    apply find?_of_filter_singleton
    exact hcw1
  have hfind2 : ({ cras_bt_policy_start_connection_watch d s with
      tm := { now := s.tm.now + CONN_WATCH_PERIOD_MS
              next_id := (cras_bt_policy_start_connection_watch d s).tm.next_id
              armed := (cras_bt_policy_start_connection_watch d s).tm.armed.eraseP
                (fun a => a.id == s.tm.next_id) } } : PolicyState).conn_watch_policies.find?
      (fun p => p.device == d)
      = some ⟨d, CONN_WATCH_MAX_RETRIES, some s.tm.next_id⟩ := hfind
  rw [conn_watch_cb_empty _ d dev _ hfind2 hprof]
  refine ⟨?_, hcw3, ?_, ?_⟩
  · show ((update_cw (cras_bt_policy_start_connection_watch d s).conn_watch_policies d
        (fun p => { p with timer := none })).eraseP
          (fun p => p.device == d)).filter (fun p => p.device == d) = []
    have hnd : ((update_cw (cras_bt_policy_start_connection_watch d s).conn_watch_policies d
        (fun p => { p with timer := none })).map (fun p => p.device)).Nodup := by
      rw [update_cw_map_device (cras_bt_policy_start_connection_watch d s).conn_watch_policies
        d (fun p => { p with timer := none }) (fun p => rfl)]
      exact hInv1.cw_nodup
    rw [cw_eraseP_eq_filter _ _ hnd]
    exact cw_filter_nil _ _ (cw_filter_bne_no_key _ _)
  · show ((cras_bt_policy_start_connection_watch d s).tm.armed.eraseP
        (fun a => a.id == s.tm.next_id)).filter
          (fun t => t.cb == TimerCb.conn_watch_cb d) = []
    rw [List.filter_eq_nil_iff]
    intro u hu
    simp only [beq_iff_eq]
    intro hucb
    have hu1 : u ∈ (cras_bt_policy_start_connection_watch d s).tm.armed :=
      (List.eraseP_sublist _).subset hu
    have huT : u ∈ armed_for (cras_bt_policy_start_connection_watch d s)
        (TimerCb.conn_watch_cb d) := by
      unfold armed_for
      rw [List.mem_filter]
      exact ⟨hu1, by simp [hucb]⟩
    rw [hcw2] at huT
    have huTe : u = ⟨s.tm.next_id, s.tm.now + CONN_WATCH_PERIOD_MS,
        TimerCb.conn_watch_cb d⟩ := by
      simpa using huT
    have hne : u.id ≠ s.tm.next_id := by
      rw [armed_eraseP_eq_filter _ hInv1.armed_nodup] at hu
      have := List.of_mem_filter hu
      simpa using this
    rw [huTe] at hne
    exact hne rfl
  · show (cras_bt_policy_start_connection_watch d s).trace
        ++ [Event.btlog_conn_watch_cb CONN_WATCH_MAX_RETRIES dev.profiles]
      = s.trace ++ [Event.btlog_conn_watch_cb CONN_WATCH_MAX_RETRIES dev.profiles]
    rw [hcw6]

/-- Witness for C7: pristine state, device 0 advertising no profiles. -/
theorem C7_conn_watch_no_profiles_witness :
    cw_for (fire_conn_watch 0 ⟨0, 0, none, none, 0⟩
        (cras_bt_policy_start_connection_watch 0 initial_state)) 0 = []
      ∧ (fire_conn_watch 0 ⟨0, 0, none, none, 0⟩
          (cras_bt_policy_start_connection_watch 0 initial_state)).suspend_policies
        = initial_state.suspend_policies
      ∧ armed_for (fire_conn_watch 0 ⟨0, 0, none, none, 0⟩
          (cras_bt_policy_start_connection_watch 0 initial_state))
          (TimerCb.conn_watch_cb 0) = []
      ∧ (fire_conn_watch 0 ⟨0, 0, none, none, 0⟩
          (cras_bt_policy_start_connection_watch 0 initial_state)).trace
        = initial_state.trace
          ++ [Event.btlog_conn_watch_cb CONN_WATCH_MAX_RETRIES
              (⟨0, 0, none, none, 0⟩ : DevState).profiles] :=
  C7_conn_watch_no_profiles initial_state 0 ⟨0, 0, none, none, 0⟩ Inv_initial rfl

/-! ## Profile-switch scheduling machinery -/

theorem Inv_emit (e : Event) (s : PolicyState) (hInv : Inv s) : Inv (emit e s) :=
  ⟨hInv.ps_nodup, hInv.su_nodup, hInv.cw_nodup, hInv.armed_nodup,
    hInv.armed_lt, hInv.armed_matches⟩

theorem swd_of_absent (s : PolicyState) (d : Nat)
    (h : ∀ p ∈ s.profile_switch_policies, p.device ≠ d) :
    switch_profile_with_delay d s
      = { s with
          tm := { now := s.tm.now
                  next_id := s.tm.next_id + 1
                  armed := s.tm.armed
                    ++ [⟨s.tm.next_id, s.tm.now + PROFILE_SWITCH_DELAY_MS,
                        TimerCb.profile_switch_delay_cb d⟩] }
          profile_switch_policies := s.profile_switch_policies
            ++ [⟨d, some s.tm.next_id⟩] } := by
  unfold switch_profile_with_delay
  rw [List.find?_eq_none.mpr (fun p hp => by simp [h p hp])]
  rfl

theorem swd_of_present (s : PolicyState) (d : Nat) (p0 : profile_switch_policy)
    (hf : s.profile_switch_policies.find? (fun p => p.device == d) = some p0) :
    switch_profile_with_delay d s
      = { s with
          tm := { now := s.tm.now
                  next_id := s.tm.next_id + 1
                  armed := s.tm.armed.filter (fun a => some a.id ≠ p0.timer)
                    ++ [⟨s.tm.next_id, s.tm.now + PROFILE_SWITCH_DELAY_MS,
                        TimerCb.profile_switch_delay_cb d⟩] }
          profile_switch_policies :=
            s.profile_switch_policies.eraseP (fun p => p.device == d)
              ++ [⟨d, some s.tm.next_id⟩] } := by
  unfold switch_profile_with_delay
  rw [hf]
  rfl

/-- Bundled effect of `switch_profile_with_delay`: afterwards the device has
exactly one profile-switch record pointing at exactly one fresh 500 ms
timer; suspend and connection-watch state, the clock, and the trace are
untouched. -/
theorem swd_spec (s : PolicyState) (d : Nat) (hInv : Inv s) :
    armed_for (switch_profile_with_delay d s) (TimerCb.profile_switch_delay_cb d)
        = [⟨s.tm.next_id, s.tm.now + PROFILE_SWITCH_DELAY_MS,
            TimerCb.profile_switch_delay_cb d⟩]
      ∧ psw_for (switch_profile_with_delay d s) d = [⟨d, some s.tm.next_id⟩]
      ∧ (switch_profile_with_delay d s).tm.next_id = s.tm.next_id + 1
      ∧ (switch_profile_with_delay d s).tm.now = s.tm.now
      ∧ (switch_profile_with_delay d s).suspend_policies = s.suspend_policies
      ∧ (switch_profile_with_delay d s).conn_watch_policies = s.conn_watch_policies
      ∧ (switch_profile_with_delay d s).trace = s.trace := by
  cases hf : s.profile_switch_policies.find? (fun p => p.device == d) with
  | none =>
    have habsent : ∀ p ∈ s.profile_switch_policies, p.device ≠ d := fun p hp => by
      simpa using List.find?_eq_none.mp hf p hp
    rw [swd_of_absent s d habsent]
    refine ⟨?_, ?_, rfl, rfl, rfl, rfl, rfl⟩
    · unfold armed_for
      simp only [List.filter_append, armed_psw_nil s hInv.armed_matches d habsent]
      simp
    · unfold psw_for
      simp only [List.filter_append, psw_filter_nil _ _ habsent]
      simp
  | some p0 =>
    have hp0 : p0 ∈ s.profile_switch_policies := List.mem_of_find?_eq_some hf
    have hp0d : p0.device = d := by simpa using List.find?_some hf
    rw [swd_of_present s d p0 hf]
    refine ⟨?_, ?_, rfl, rfl, rfl, rfl, rfl⟩
    · show (s.tm.armed.filter (fun a => some a.id ≠ p0.timer)
          ++ [(⟨s.tm.next_id, s.tm.now + PROFILE_SWITCH_DELAY_MS,
              TimerCb.profile_switch_delay_cb d⟩ : ArmedTimer)]).filter
            (fun t => t.cb == TimerCb.profile_switch_delay_cb d)
        = [(⟨s.tm.next_id, s.tm.now + PROFILE_SWITCH_DELAY_MS,
            TimerCb.profile_switch_delay_cb d⟩ : ArmedTimer)]
      rw [List.filter_append]
      have : (s.tm.armed.filter (fun a => some a.id ≠ p0.timer)).filter
          (fun t => t.cb == TimerCb.profile_switch_delay_cb d) = [] := by
        rw [List.filter_eq_nil_iff]
        intro u hu
        simp only [beq_iff_eq]
        intro hucb
        have hum : u ∈ s.tm.armed := List.mem_of_mem_filter hu
        have hune : some u.id ≠ p0.timer := by
          have := List.of_mem_filter hu
          simpa using this
        exact hune (armed_psw_all_id s hInv d p0 hp0 hp0d u hum hucb).symm
      rw [this]
      simp
    · show (s.profile_switch_policies.eraseP (fun p => p.device == d)
          ++ [(⟨d, some s.tm.next_id⟩ : profile_switch_policy)]).filter
            (fun p => p.device == d)
        = [(⟨d, some s.tm.next_id⟩ : profile_switch_policy)]
      rw [List.filter_append, psw_eraseP_eq_filter _ _ hInv.ps_nodup,
        psw_filter_nil _ _ (psw_filter_bne_no_key _ _)]
      simp

theorem Inv_switch_profile_with_delay (s : PolicyState) (d : Nat) (hInv : Inv s) :
    Inv (switch_profile_with_delay d s) := by
  cases hf : s.profile_switch_policies.find? (fun p => p.device == d) with
  | none =>
    have habsent : ∀ p ∈ s.profile_switch_policies, p.device ≠ d := fun p hp => by
      simpa using List.find?_eq_none.mp hf p hp
    rw [swd_of_absent s d habsent]
    constructor
    · simp only [List.map_append, List.map_cons, List.map_nil]
      refine List.Nodup.append hInv.ps_nodup (List.nodup_singleton d)
        (List.disjoint_left.mpr ?_)
      intro a ha
      simp only [List.mem_map] at ha
      obtain ⟨p, hp, hpa⟩ := ha
      simp only [List.mem_singleton]
      rw [← hpa]
      exact habsent p hp
    · exact hInv.su_nodup
    · exact hInv.cw_nodup
    · simp only [List.map_append, List.map_cons, List.map_nil]
      refine List.Nodup.append hInv.armed_nodup (List.nodup_singleton _)
        (List.disjoint_left.mpr ?_)
      intro a ha
      simp only [List.mem_map] at ha
      obtain ⟨t, ht, hta⟩ := ha
      simp only [List.mem_singleton]
      rw [← hta]
      exact Nat.ne_of_lt (hInv.armed_lt t ht)
    · intro t ht
      simp only [List.mem_append, List.mem_singleton] at ht
      rcases ht with ht | ht
      · exact Nat.lt_succ_of_lt (hInv.armed_lt t ht)
      · rw [ht]
        exact Nat.lt_succ_self _
    · intro t ht
      simp only [List.mem_append, List.mem_singleton] at ht
      rcases ht with ht | ht
      · refine timer_matches_mono s _ t rfl (fun p hp => by simp [hp]) (fun p hp => hp)
          (fun p hp => hp) (hInv.armed_matches t ht)
      · subst ht
        refine ⟨fun d' hd' => ?_, fun d' hd' => by simp at hd',
          fun d' hd' => by simp at hd'⟩
        have : d = d' := by simpa using hd'
        subst this
        exact ⟨⟨d, some s.tm.next_id⟩, by simp, rfl, rfl⟩
  | some p0 =>
    have hp0 : p0 ∈ s.profile_switch_policies := List.mem_of_find?_eq_some hf
    have hp0d : p0.device = d := by simpa using List.find?_some hf
    rw [swd_of_present s d p0 hf]
    have hsub : List.Sublist
        (s.tm.armed.filter (fun a => some a.id ≠ p0.timer)) s.tm.armed :=
      List.filter_sublist _
    have hps_erase : ∀ p ∈ s.profile_switch_policies.eraseP (fun p => p.device == d),
        p ∈ s.profile_switch_policies ∧ p.device ≠ d := by
      intro p hp
      rw [psw_eraseP_eq_filter _ _ hInv.ps_nodup] at hp
      exact ⟨List.mem_of_mem_filter hp, psw_filter_bne_no_key _ _ p hp⟩
    constructor
    · simp only [List.map_append, List.map_cons, List.map_nil]
      refine List.Nodup.append
        (((List.eraseP_sublist s.profile_switch_policies).map
          (fun p : profile_switch_policy => p.device)).nodup hInv.ps_nodup)
        (List.nodup_singleton d) (List.disjoint_left.mpr ?_)
      intro a ha
      simp only [List.mem_map] at ha
      obtain ⟨p, hp, hpa⟩ := ha
      simp only [List.mem_singleton]
      rw [← hpa]
      exact (hps_erase p hp).2
    · exact hInv.su_nodup
    · exact hInv.cw_nodup
    · simp only [List.map_append, List.map_cons, List.map_nil]
      refine List.Nodup.append ((hsub.map (fun t => t.id)).nodup hInv.armed_nodup)
        (List.nodup_singleton _) (List.disjoint_left.mpr ?_)
      intro a ha
      simp only [List.mem_map] at ha
      obtain ⟨t, ht, hta⟩ := ha
      simp only [List.mem_singleton]
      rw [← hta]
      exact Nat.ne_of_lt (hInv.armed_lt t (hsub.subset ht))
    · intro t ht
      simp only [List.mem_append, List.mem_singleton] at ht
      rcases ht with ht | ht
      · exact Nat.lt_succ_of_lt (hInv.armed_lt t (hsub.subset ht))
      · rw [ht]
        exact Nat.lt_succ_self _
    · intro t ht
      simp only [List.mem_append, List.mem_singleton] at ht
      rcases ht with ht | ht
      · have htm : t ∈ s.tm.armed := hsub.subset ht
        have htk : some t.id ≠ p0.timer := by
          have := List.of_mem_filter ht
          simpa using this
        obtain ⟨h1, h2, h3⟩ := hInv.armed_matches t htm
        refine ⟨fun d' hd' => ?_, h2, h3⟩
        obtain ⟨q, hq, hqd, hqt⟩ := h1 d' hd'
        by_cases hdd : d' = d
        · exact absurd
            (armed_psw_all_id s hInv d' p0 hp0 (by rw [hp0d, hdd]) t htm hd').symm htk
        · refine ⟨q, ?_, hqd, hqt⟩
          refine List.mem_append_left _ ?_
          rw [psw_eraseP_eq_filter _ _ hInv.ps_nodup, List.mem_filter]
          exact ⟨hq, by simp [hqd, hdd]⟩
      · subst ht
        refine ⟨fun d' hd' => ?_, fun d' hd' => by simp at hd',
          fun d' hd' => by simp at hd'⟩
        have : d = d' := by simpa using hd'
        subst this
        exact ⟨⟨d, some s.tm.next_id⟩, by simp, rfl, rfl⟩

theorem swd_trace (d : Nat) (s : PolicyState) :
    (switch_profile_with_delay d s).trace = s.trace := by
  unfold switch_profile_with_delay
  cases s.profile_switch_policies.find? (fun p => p.device == d) <;> rfl

theorem swd_sus (d : Nat) (s : PolicyState) :
    (switch_profile_with_delay d s).suspend_policies = s.suspend_policies := by
  unfold switch_profile_with_delay
  cases s.profile_switch_policies.find? (fun p => p.device == d) <;> rfl

theorem swd_cwl (d : Nat) (s : PolicyState) :
    (switch_profile_with_delay d s).conn_watch_policies = s.conn_watch_policies := by
  unfold switch_profile_with_delay
  cases s.profile_switch_policies.find? (fun p => p.device == d) <;> rfl

@[simp] theorem armed_for_emit (e : Event) (s : PolicyState) (cb : TimerCb) :
    armed_for (emit e s) cb = armed_for s cb := rfl

@[simp] theorem psw_for_emit (e : Event) (s : PolicyState) (d : Nat) :
    psw_for (emit e s) d = psw_for s d := rfl

theorem swd_next_id (d : Nat) (s : PolicyState) :
    (switch_profile_with_delay d s).tm.next_id = s.tm.next_id + 1 := by
  unfold switch_profile_with_delay
  cases s.profile_switch_policies.find? (fun p => p.device == d) <;> rfl

theorem Inv_switch_profile (s : PolicyState) (d : Nat) (dev : DevState)
    (hInv : Inv s) : Inv (switch_profile d dev s) := by
  unfold switch_profile all_directions
  simp only [List.foldl_cons, List.foldl_nil, DevState.bt_iodevs]
  cases ho : dev.bt_iodev_output <;> cases hi : dev.bt_iodev_input <;> simp only []
  · exact hInv
  · exact Inv_emit _ _ (Inv_emit _ _ (Inv_emit _ _ hInv))
  · exact Inv_switch_profile_with_delay _ _ (Inv_emit _ _ hInv)
  · exact Inv_emit _ _ (Inv_emit _ _ (Inv_switch_profile_with_delay _ _
      (Inv_emit _ _ (Inv_emit _ _ hInv))))

theorem switch_profile_armed (s : PolicyState) (d : Nat) (dev : DevState)
    (hInv : Inv s) (hout : dev.bt_iodev_output.isSome = true) :
    armed_for (switch_profile d dev s) (TimerCb.profile_switch_delay_cb d)
      = [⟨s.tm.next_id, s.tm.now + PROFILE_SWITCH_DELAY_MS,
          TimerCb.profile_switch_delay_cb d⟩] := by
  obtain ⟨idx0, ho⟩ := Option.isSome_iff_exists.mp hout
  unfold switch_profile all_directions
  simp only [List.foldl_cons, List.foldl_nil, DevState.bt_iodevs, ho]
  cases hi : dev.bt_iodev_input <;>
    simp only [armed_for_emit] <;>
    [exact (swd_spec _ d (Inv_emit _ _ hInv)).1;
     exact (swd_spec _ d (Inv_emit _ _ (Inv_emit _ _ hInv))).1]

theorem switch_profile_next_id (s : PolicyState) (d : Nat) (dev : DevState)
    (hout : dev.bt_iodev_output.isSome = true) :
    (switch_profile d dev s).tm.next_id = s.tm.next_id + 1 := by
  obtain ⟨idx0, ho⟩ := Option.isSome_iff_exists.mp hout
  unfold switch_profile all_directions
  simp only [List.foldl_cons, List.foldl_nil, DevState.bt_iodevs, ho]
  cases hi : dev.bt_iodev_input <;> simp [emit_tm, swd_next_id]

theorem Inv_set_now (s : PolicyState) (t : Nat) (hInv : Inv s) :
    Inv { s with
          tm := { now := t
                  next_id := s.tm.next_id
                  armed := s.tm.armed } } :=
  ⟨hInv.ps_nodup, hInv.su_nodup, hInv.cw_nodup, hInv.armed_nodup,
    hInv.armed_lt, hInv.armed_matches⟩

theorem switch_at_step (s : PolicyState) (d t : Nat) (dev : DevState)
    (hInv : Inv s) (hout : dev.bt_iodev_output.isSome = true) :
    Inv (switch_at d t dev s)
      ∧ armed_for (switch_at d t dev s) (TimerCb.profile_switch_delay_cb d)
        = [⟨s.tm.next_id, t + PROFILE_SWITCH_DELAY_MS,
            TimerCb.profile_switch_delay_cb d⟩]
      ∧ (switch_at d t dev s).tm.next_id = s.tm.next_id + 1 := by
  unfold switch_at
  exact ⟨Inv_switch_profile _ _ _ (Inv_set_now s t hInv),
    switch_profile_armed _ d dev (Inv_set_now s t hInv) hout,
    switch_profile_next_id _ d dev hout⟩

theorem run_switches_spec (d : Nat) (l : List (Nat × DevState)) :
    ∀ (s : PolicyState), Inv s →
    (∀ x ∈ l, x.2.bt_iodev_output.isSome = true) →
    ∀ i (hi : i < l.length),
      Inv (run_switches d (l.take (i + 1)) s)
        ∧ armed_for (run_switches d (l.take (i + 1)) s)
            (TimerCb.profile_switch_delay_cb d)
          = [⟨s.tm.next_id + i, (l.get ⟨i, hi⟩).1 + PROFILE_SWITCH_DELAY_MS,
              TimerCb.profile_switch_delay_cb d⟩]
        ∧ (run_switches d (l.take (i + 1)) s).tm.next_id
          = s.tm.next_id + (i + 1) := by
  induction l with
  | nil =>
    intro s hInv hout i hi
    exact absurd hi (by simp)
  | cons x xs ih =>
    intro s hInv hout i hi
    have hx := hout x (List.mem_cons_self x xs)
    have hstep := switch_at_step s d x.1 x.2 hInv hx
    cases i with
    | zero =>
      refine ⟨hstep.1, ?_, ?_⟩
      · show armed_for (switch_at d x.1 x.2 s) (TimerCb.profile_switch_delay_cb d) = _
        rw [hstep.2.1]
        simp
      · show (switch_at d x.1 x.2 s).tm.next_id = s.tm.next_id + (0 + 1)
        rw [hstep.2.2]
    | succ i =>
      have hi' : i < xs.length := by simpa using hi
      have ihx := ih (switch_at d x.1 x.2 s) hstep.1
        (fun y hy => hout y (List.mem_cons_of_mem _ hy)) i hi'
      refine ⟨ihx.1, ?_, ?_⟩
      · show armed_for (run_switches d (xs.take (i + 1)) (switch_at d x.1 x.2 s))
            (TimerCb.profile_switch_delay_cb d) = _
        rw [ihx.2.1]
        have hid : (switch_at d x.1 x.2 s).tm.next_id + i = s.tm.next_id + (i + 1) := by
          rw [hstep.2.2]
          omega
        rw [hid]
        rfl
      · show (run_switches d (xs.take (i + 1)) (switch_at d x.1 x.2 s)).tm.next_id
            = s.tm.next_id + (i + 1 + 1)
        rw [ihx.2.2, hstep.2.2]
        omega

/-! ## Claim C3: 500 ms profile-switch coalescing -/

/-- C3: if `switch_profile` is invoked K ≥ 1 times for the same device at
non-decreasing times inside one 500 ms window (so no pending timer expires
in between), then after each invocation exactly one delayed output-resume
timer is pending for the device — each later invocation having cancelled the
previous one and armed a fresh timer — and after the last invocation its
deadline is 500 ms after that invocation. -/
theorem C3_profile_switch_coalesces (s : PolicyState) (d : Nat)
    (l : List (Nat × DevState)) (hInv : Inv s) (hne : l ≠ [])
    (hout : ∀ x ∈ l, x.2.bt_iodev_output.isSome = true)
    (hmono : l.Chain' (fun a b => a.1 ≤ b.1))
    (hwin : ∀ x ∈ l, x.1 < (l.head hne).1 + PROFILE_SWITCH_DELAY_MS) :
    ∀ i (hi : i < l.length),
      armed_for (run_switches d (l.take (i + 1)) s)
          (TimerCb.profile_switch_delay_cb d)
        = [⟨s.tm.next_id + i, (l.get ⟨i, hi⟩).1 + PROFILE_SWITCH_DELAY_MS,
            TimerCb.profile_switch_delay_cb d⟩] :=
  fun i hi => (run_switches_spec d l s hInv hout i hi).2.1

/-- Witness for C3: two switches at t=0 and t=300 for device 4; after the
second, the single pending timer's deadline is 800. -/
theorem C3_profile_switch_coalesces_witness :
    armed_for (run_switches 4 (([((0 : Nat), (⟨18, 18, some 11, some 12, 0⟩ : DevState)),
          ((300 : Nat), (⟨18, 18, some 11, none, 0⟩ : DevState))]).take (1 + 1))
          initial_state)
        (TimerCb.profile_switch_delay_cb 4)
      = [⟨initial_state.tm.next_id + 1, 800, TimerCb.profile_switch_delay_cb 4⟩] :=
  C3_profile_switch_coalesces initial_state 4
    [((0 : Nat), (⟨18, 18, some 11, some 12, 0⟩ : DevState)),
     ((300 : Nat), (⟨18, 18, some 11, none, 0⟩ : DevState))]
    Inv_initial (by simp) (by decide) (by simp [List.chain'_cons]) (by decide)
    1 (by decide)

/-! ## Claim C4: what switch_profile does per direction -/

/-- C4: `switch_profile` suspends, via DEVLIST, the iodev of each direction
whose slot is non-null; the input iodev gets `update_active_node(iodev,0,1)`
and an immediate resume; for the output direction only a 500 ms
profile-switch timer is armed (no timer when there is no output iodev), and
the delayed callback calls `update_active_node` and resume only if
`bt_iodevs[CRAS_STREAM_OUTPUT]` is still non-null when it fires, deleting
the record either way. -/
theorem C4_switch_profile (s : PolicyState) (d : Nat) (dev : DevState)
    (hInv : Inv s) :
    (switch_profile d dev s).trace
        = s.trace
          ++ (dev.bt_iodev_output.toList.map Event.suspend_dev)
          ++ (dev.bt_iodev_input.toList.map Event.suspend_dev)
          ++ (dev.bt_iodev_input.toList.bind
              (fun idx => [Event.update_active_node idx 0 1, Event.resume_dev idx]))
      ∧ (dev.bt_iodev_output.isSome →
          armed_for (switch_profile d dev s) (TimerCb.profile_switch_delay_cb d)
            = [⟨s.tm.next_id, s.tm.now + PROFILE_SWITCH_DELAY_MS,
                TimerCb.profile_switch_delay_cb d⟩])
      ∧ (dev.bt_iodev_output = none → (switch_profile d dev s).tm = s.tm)
      ∧ (∀ (s2 : PolicyState) (dev2 : DevState),
          (s2.profile_switch_policies.map (fun p => p.device)).Nodup →
          (profile_switch_delay_cb d dev2 s2).trace
              = s2.trace
                ++ (dev2.bt_iodev_output.toList.bind
                    (fun idx => [Event.update_active_node idx 0 1, Event.resume_dev idx]))
            ∧ psw_for (profile_switch_delay_cb d dev2 s2) d = []) := by
  refine ⟨?_, ?_, ?_, ?_⟩
  · unfold switch_profile all_directions
    simp only [List.foldl_cons, List.foldl_nil, DevState.bt_iodevs]
    cases ho : dev.bt_iodev_output <;> cases hi : dev.bt_iodev_input <;>
      simp [emit, swd_trace, Option.toList]
  · intro hsome
    obtain ⟨idx0, ho⟩ := Option.isSome_iff_exists.mp hsome
    unfold switch_profile all_directions
    simp only [List.foldl_cons, List.foldl_nil, DevState.bt_iodevs, ho]
    cases hi : dev.bt_iodev_input <;>
      simp only [armed_for_emit] <;>
      [exact (swd_spec _ d (Inv_emit _ _ hInv)).1;
       exact (swd_spec _ d (Inv_emit _ _ (Inv_emit _ _ hInv))).1]
  · intro ho
    unfold switch_profile all_directions
    simp only [List.foldl_cons, List.foldl_nil, DevState.bt_iodevs, ho]
    cases hi : dev.bt_iodev_input <;> rfl
  · intro s2 dev2 hnd
    unfold profile_switch_delay_cb
    constructor
    · cases ho2 : dev2.bt_iodev_output <;>
        simp [DevState.bt_iodevs, ho2, emit, Option.toList]
    · unfold psw_for
      cases ho2 : dev2.bt_iodev_output <;>
        simp only [DevState.bt_iodevs, ho2, emit_psw] <;>
        rw [psw_eraseP_eq_filter _ _ hnd] <;>
        exact psw_filter_nil _ _ (psw_filter_bne_no_key _ _)

/-- Witness for C4: device with output iodev 11 and input iodev 12, from the
pristine state. -/
theorem C4_switch_profile_witness :
    (switch_profile 4 ⟨18, 18, some 11, some 12, 0⟩ initial_state).trace
        = initial_state.trace
          ++ ((some 11 : Option Nat).toList.map Event.suspend_dev)
          ++ ((some 12 : Option Nat).toList.map Event.suspend_dev)
          ++ ((some 12 : Option Nat).toList.bind
              (fun idx => [Event.update_active_node idx 0 1, Event.resume_dev idx]))
      ∧ ((some 11 : Option Nat).isSome →
          armed_for (switch_profile 4 ⟨18, 18, some 11, some 12, 0⟩ initial_state)
            (TimerCb.profile_switch_delay_cb 4)
            = [⟨initial_state.tm.next_id,
                initial_state.tm.now + PROFILE_SWITCH_DELAY_MS,
                TimerCb.profile_switch_delay_cb 4⟩])
      ∧ ((some 11 : Option Nat) = none →
          (switch_profile 4 ⟨18, 18, some 11, some 12, 0⟩ initial_state).tm
            = initial_state.tm)
      ∧ (∀ (s2 : PolicyState) (dev2 : DevState),
          (s2.profile_switch_policies.map (fun p => p.device)).Nodup →
          (profile_switch_delay_cb 4 dev2 s2).trace
              = s2.trace
                ++ (dev2.bt_iodev_output.toList.bind
                    (fun idx => [Event.update_active_node idx 0 1, Event.resume_dev idx]))
            ∧ psw_for (profile_switch_delay_cb 4 dev2 s2) 4 = []) :=
  C4_switch_profile initial_state 4 ⟨18, 18, some 11, some 12, 0⟩ Inv_initial

/-! ## Claim C6: connecting the missing profile on a tick -/

theorem schedule_suspend_trace (d ms : Nat) (r : SuspendReason) (s : PolicyState) :
    (schedule_suspend d ms r s).trace = s.trace := by
  unfold schedule_suspend
  cases s.suspend_policies.find? (fun p => p.device == d) <;> rfl

/-- Counterexample to C6 as stated: device 2 advertises an audio profile
(HFP-HandsFree only, profiles bitmask 16) and exactly one of A2DP-Sink and
HFP-HandsFree is connected (HFP), yet the connection-watch tick issues no
`cras_bt_device_connect_profile` request at all — the code only connects the
missing one when BOTH profiles are supported. -/
theorem C6_counterexample :
    (⟨16, 16, none, none, 0⟩ : DevState).profiles ≠ 0
      ∧ cras_bt_device_is_profile_connected ⟨16, 16, none, none, 0⟩
          CRAS_BT_DEVICE_PROFILE_HFP_HANDSFREE = true
      ∧ cras_bt_device_is_profile_connected ⟨16, 16, none, none, 0⟩
          CRAS_BT_DEVICE_PROFILE_A2DP_SINK = false
      ∧ (fire_conn_watch 2 ⟨16, 16, none, none, 0⟩
          (cras_bt_policy_start_connection_watch 2 initial_state)).trace.filter
            (fun e => is_connect_profile e) = [] := by
  decide

/-- C6 (amended): on a connection-watch tick for a device that advertises
both A2DP-Sink and HFP-HandsFree, if exactly one of them is connected, the
engine asks the registry (`cras_bt_device_connect_profile`) to connect the
missing one. -/
theorem C6_connects_missing_profile (s : PolicyState) (d : Nat) (dev : DevState)
    (p0 : connection_watch)
    (hf : s.conn_watch_policies.find? (fun p => p.device == d) = some p0)
    (hsup_a : cras_bt_device_supports_profile dev CRAS_BT_DEVICE_PROFILE_A2DP_SINK = true)
    (hsup_h : cras_bt_device_supports_profile dev
      CRAS_BT_DEVICE_PROFILE_HFP_HANDSFREE = true) :
    (cras_bt_device_is_profile_connected dev CRAS_BT_DEVICE_PROFILE_A2DP_SINK = false →
      cras_bt_device_is_profile_connected dev CRAS_BT_DEVICE_PROFILE_HFP_HANDSFREE = true →
      Event.connect_profile d UUID.A2DP_SINK_UUID
        ∈ (conn_watch_cb d dev s).trace.drop s.trace.length)
    ∧ (cras_bt_device_is_profile_connected dev CRAS_BT_DEVICE_PROFILE_A2DP_SINK = true →
      cras_bt_device_is_profile_connected dev
        CRAS_BT_DEVICE_PROFILE_HFP_HANDSFREE = false →
      Event.connect_profile d UUID.HFP_HF_UUID
        ∈ (conn_watch_cb d dev s).trace.drop s.trace.length) := by
  have hp0 : ¬ dev.profiles = 0 := by
    intro h
    rw [cras_bt_device_supports_profile, h] at hsup_a
    simp at hsup_a
  constructor
  · intro hca hch
    unfold conn_watch_cb
    rw [hf]
    simp only [hsup_a, hsup_h, hca, hch, if_neg hp0, Bool.not_false, Bool.and_self,
      Bool.not_true, Bool.false_and, Bool.and_false, Bool.and_true, Bool.true_and,
      if_true, if_false, bne_self_eq_false, Bool.false_or, Bool.or_false]
    by_cases hr : p0.retries_left - 1 = 0
    · simp [hr, emit, schedule_suspend_trace, List.drop_left,
        connect_missing_events, hsup_a, hsup_h, hca, hch]
    · simp [hr, emit, List.drop_left, connect_missing_events, hsup_a, hsup_h, hca, hch]
  · intro hca hch
    unfold conn_watch_cb
    rw [hf]
    simp only [hsup_a, hsup_h, hca, hch, if_neg hp0, Bool.not_false, Bool.and_self,
      Bool.not_true, Bool.false_and, Bool.and_false, Bool.and_true, Bool.true_and,
      if_true, if_false, bne_self_eq_false, Bool.false_or, Bool.or_false]
    by_cases hr : p0.retries_left - 1 = 0
    · simp [hr, emit, schedule_suspend_trace, List.drop_left,
        connect_missing_events, hsup_a, hsup_h, hca, hch]
    · simp [hr, emit, List.drop_left, connect_missing_events, hsup_a, hsup_h, hca, hch]

/-- Witness for the amended C6: device supports both profiles (mask 18),
only HFP connected (mask 16); the tick requests an A2DP-Sink connection. -/
theorem C6_connects_missing_profile_witness :
    (cras_bt_device_is_profile_connected ⟨18, 16, none, none, 0⟩
        CRAS_BT_DEVICE_PROFILE_A2DP_SINK = false →
      cras_bt_device_is_profile_connected ⟨18, 16, none, none, 0⟩
        CRAS_BT_DEVICE_PROFILE_HFP_HANDSFREE = true →
      Event.connect_profile 2 UUID.A2DP_SINK_UUID
        ∈ (conn_watch_cb 2 ⟨18, 16, none, none, 0⟩
            (cras_bt_policy_start_connection_watch 2 initial_state)).trace.drop
              (cras_bt_policy_start_connection_watch 2 initial_state).trace.length)
    ∧ (cras_bt_device_is_profile_connected ⟨18, 16, none, none, 0⟩
        CRAS_BT_DEVICE_PROFILE_A2DP_SINK = true →
      cras_bt_device_is_profile_connected ⟨18, 16, none, none, 0⟩
        CRAS_BT_DEVICE_PROFILE_HFP_HANDSFREE = false →
      Event.connect_profile 2 UUID.HFP_HF_UUID
        ∈ (conn_watch_cb 2 ⟨18, 16, none, none, 0⟩
            (cras_bt_policy_start_connection_watch 2 initial_state)).trace.drop
              (cras_bt_policy_start_connection_watch 2 initial_state).trace.length) :=
  C6_connects_missing_profile
    (cras_bt_policy_start_connection_watch 2 initial_state) 2 ⟨18, 16, none, none, 0⟩
    ⟨2, CONN_WATCH_MAX_RETRIES, some 0⟩ (by decide) rfl rfl

/-! ## Connection-watch tick characterization -/

theorem profile_missing_profiles_ne (dev : DevState) (h : profile_missing dev) :
    ¬ dev.profiles = 0 := by
  rcases h with ⟨h1, -⟩ | ⟨h1, -⟩ <;>
  · intro h0
    rw [cras_bt_device_supports_profile, h0] at h1
    simp at h1

theorem profile_missing_code (dev : DevState) (h : profile_missing dev) :
    (cras_bt_device_supports_profile dev CRAS_BT_DEVICE_PROFILE_A2DP_SINK
        != cras_bt_device_is_profile_connected dev CRAS_BT_DEVICE_PROFILE_A2DP_SINK
      || cras_bt_device_supports_profile dev CRAS_BT_DEVICE_PROFILE_HFP_HANDSFREE
        != cras_bt_device_is_profile_connected dev
            CRAS_BT_DEVICE_PROFILE_HFP_HANDSFREE) = true := by
  rcases h with ⟨h1, h2⟩ | ⟨h1, h2⟩ <;> simp [h1, h2]

/-- State equation for a `conn_watch_cb` tick that still has retries left
and a supported-but-unconnected profile: decrement `retries_left` and re-arm
a `CONN_WATCH_PERIOD_MS` timer. -/
theorem conn_watch_cb_retry_eq (s : PolicyState) (d : Nat) (dev : DevState)
    (p0 : connection_watch)
    (hf : s.conn_watch_policies.find? (fun p => p.device == d) = some p0)
    (hmis : profile_missing dev)
    (hr : p0.retries_left - 1 ≠ 0) :
    conn_watch_cb d dev s
      = { s with
          tm := { now := s.tm.now
                  next_id := s.tm.next_id + 1
                  armed := s.tm.armed
                    ++ [⟨s.tm.next_id, s.tm.now + CONN_WATCH_PERIOD_MS,
                        TimerCb.conn_watch_cb d⟩] }
          conn_watch_policies :=
            update_cw (update_cw s.conn_watch_policies d (fun p => { p with timer := none }))
              d (fun p => { p with
                            retries_left := p0.retries_left - 1
                            timer := some s.tm.next_id })
          trace := s.trace
            ++ [Event.btlog_conn_watch_cb p0.retries_left dev.profiles]
            ++ connect_missing_events d dev
            ++ [Event.syslog_debug_retries p0.retries_left] } := by
  have hprof := profile_missing_profiles_ne dev hmis
  have hcode := profile_missing_code dev hmis
  unfold conn_watch_cb
  rw [hf]
  simp only [if_neg hprof, hcode, if_pos, if_true]
  rw [if_pos hr]
  simp [emit, emit_many, cras_tm_create_timer, List.append_assoc]

/-- State equation for the `conn_watch_cb` tick on which `retries_left`
reaches zero: the record keeps `timer = NULL`, no watch timer is re-armed,
and `schedule_suspend(device, 0, CONN_WATCH_TIME_OUT)` runs. -/
theorem conn_watch_cb_timeout_eq (s : PolicyState) (d : Nat) (dev : DevState)
    (p0 : connection_watch)
    (hf : s.conn_watch_policies.find? (fun p => p.device == d) = some p0)
    (hmis : profile_missing dev)
    (hr : p0.retries_left - 1 = 0) :
    conn_watch_cb d dev s
      = schedule_suspend d 0 SuspendReason.CONN_WATCH_TIME_OUT
          { s with
            conn_watch_policies :=
              update_cw
                (update_cw s.conn_watch_policies d (fun p => { p with timer := none }))
                d (fun p => { p with retries_left := p0.retries_left - 1 })
            trace := s.trace
              ++ [Event.btlog_conn_watch_cb p0.retries_left dev.profiles]
              ++ connect_missing_events d dev
              ++ [Event.syslog_debug_retries p0.retries_left,
                  Event.syslog_err "Connection watch timeout."] } := by
  have hprof := profile_missing_profiles_ne dev hmis
  have hcode := profile_missing_code dev hmis
  unfold conn_watch_cb
  rw [hf]
  simp only [if_neg hprof, hcode, if_pos, if_true]
  rw [if_neg (by simpa using hr)]
  congr 1
  simp [emit, emit_many, hr, List.append_assoc]

/-- Removing a pending timer (and moving the clock) preserves the
invariant. -/
theorem Inv_erase_armed (s : PolicyState) (tid dl : Nat) (hInv : Inv s) :
    Inv { s with
          tm := { now := dl
                  next_id := s.tm.next_id
                  armed := s.tm.armed.eraseP (fun a => a.id == tid) } } := by
  have hsub : List.Sublist (s.tm.armed.eraseP (fun a => a.id == tid)) s.tm.armed :=
    List.eraseP_sublist _
  exact ⟨hInv.ps_nodup, hInv.su_nodup, hInv.cw_nodup,
    (hsub.map (fun t => t.id)).nodup hInv.armed_nodup,
    fun t ht => hInv.armed_lt t (hsub.subset ht),
    fun t ht => hInv.armed_matches t (hsub.subset ht)⟩

/-- After erasing the sole pending timer with callback `cb`, none with that
callback remains. -/
theorem armed_for_erase_self (s : PolicyState) (cb : TimerCb) (tid dl : Nat)
    (hInv : Inv s) (hone : armed_for s cb = [⟨tid, dl, cb⟩]) :
    (s.tm.armed.eraseP (fun a => a.id == tid)).filter (fun t => t.cb == cb) = [] := by
  rw [armed_eraseP_eq_filter s hInv.armed_nodup tid, List.filter_eq_nil_iff]
  intro u hu
  simp only [beq_iff_eq]
  intro hucb
  have hum : u ∈ s.tm.armed := List.mem_of_mem_filter hu
  have hune : u.id ≠ tid := by
    have := List.of_mem_filter hu
    simpa using this
  have humem : u ∈ armed_for s cb := by
    unfold armed_for
    rw [List.mem_filter]
    exact ⟨hum, by simp [hucb]⟩
  rw [hone] at humem
  have : u = ⟨tid, dl, cb⟩ := by simpa using humem
  rw [this] at hune
  exact hune rfl

/-- One connection-watch tick with retries remaining: fired at its deadline,
it decrements `retries_left`, re-arms one fresh 2000 ms timer, and leaves
the suspend list untouched. -/
theorem watch_tick_retry (s : PolicyState) (d : Nat) (dev : DevState)
    (tid dl : Nat) (r : Int) (hInv : Inv s)
    (hcw : cw_for s d = [⟨d, r, some tid⟩])
    (hone : armed_for s (TimerCb.conn_watch_cb d)
      = [⟨tid, dl, TimerCb.conn_watch_cb d⟩])
    (hmis : profile_missing dev) (hr : r - 1 ≠ 0) :
    Inv (fire_conn_watch d dev s)
      ∧ cw_for (fire_conn_watch d dev s) d = [⟨d, r - 1, some s.tm.next_id⟩]
      ∧ armed_for (fire_conn_watch d dev s) (TimerCb.conn_watch_cb d)
          = [⟨s.tm.next_id, dl + CONN_WATCH_PERIOD_MS, TimerCb.conn_watch_cb d⟩]
      ∧ (fire_conn_watch d dev s).suspend_policies = s.suspend_policies
      ∧ (fire_conn_watch d dev s).tm.next_id = s.tm.next_id + 1 := by
  have hp0mem : (⟨d, r, some tid⟩ : connection_watch) ∈ s.conn_watch_policies := by
    have : (⟨d, r, some tid⟩ : connection_watch)
        ∈ s.conn_watch_policies.filter (fun p => p.device == d) := by
      unfold cw_for at hcw
      rw [hcw]
      exact List.mem_singleton_self _
    exact List.mem_of_mem_filter this
  rw [fire_conn_watch_eq s d dev tid dl hInv hone]
  set s2 : PolicyState :=
    { s with
      tm := { now := dl
              next_id := s.tm.next_id
              armed := s.tm.armed.eraseP (fun a => a.id == tid) } } with hs2
  have hInv2 : Inv s2 := Inv_erase_armed s tid dl hInv
  have hno2 : armed_for s2 (TimerCb.conn_watch_cb d) = [] :=
    armed_for_erase_self s (TimerCb.conn_watch_cb d) tid dl hInv hone
  have hfind2 : s2.conn_watch_policies.find? (fun p => p.device == d)
      = some ⟨d, r, some tid⟩ := by
    apply find?_of_filter_singleton
    exact hcw
  rw [conn_watch_cb_retry_eq s2 d dev ⟨d, r, some tid⟩ hfind2 hmis hr]
  have hcwl : s2.conn_watch_policies = s.conn_watch_policies := rfl
  refine ⟨?_, ?_, ?_, rfl, rfl⟩
  · constructor
    · exact hInv.ps_nodup
    · exact hInv.su_nodup
    · show (List.map (fun p => p.device)
        (update_cw (update_cw s2.conn_watch_policies d (fun p => { p with timer := none }))
          d (fun p => { p with
                        retries_left := r - 1
                        timer := some s2.tm.next_id }))).Nodup
      rw [update_cw_map_device _ d
          (fun p => { p with retries_left := r - 1, timer := some s2.tm.next_id })
          (fun p => rfl),
        update_cw_map_device _ d (fun p => { p with timer := none }) (fun p => rfl)]
      exact hInv.cw_nodup
    · simp only [List.map_append, List.map_cons, List.map_nil]
      refine List.Nodup.append hInv2.armed_nodup (List.nodup_singleton _)
        (List.disjoint_left.mpr ?_)
      intro a ha
      simp only [List.mem_map] at ha
      obtain ⟨t, ht, hta⟩ := ha
      simp only [List.mem_singleton]
      rw [← hta]
      exact Nat.ne_of_lt (hInv2.armed_lt t ht)
    · intro t ht
      simp only [List.mem_append, List.mem_singleton] at ht
      rcases ht with ht | ht
      · exact Nat.lt_succ_of_lt (hInv2.armed_lt t ht)
      · rw [ht]
        exact Nat.lt_succ_self _
    · intro t ht
      simp only [List.mem_append, List.mem_singleton] at ht
      rcases ht with ht | ht
      · obtain ⟨h1, h2, h3⟩ := hInv2.armed_matches t ht
        refine ⟨h1, h2, fun d' hd' => ?_⟩
        by_cases hdd : d' = d
        · exfalso
          subst hdd
          have : t ∈ armed_for s2 (TimerCb.conn_watch_cb d') := by
            unfold armed_for
            rw [List.mem_filter]
            exact ⟨ht, by simp [hd']⟩
          rw [hno2] at this
          cases this
        · obtain ⟨q, hq, hqd, hqt⟩ := h3 d' hd'
          refine ⟨q, ?_, hqd, hqt⟩
          exact mem_update_cw_of_ne _ _ _ q
            (mem_update_cw_of_ne _ _ _ q hq (by rw [hqd]; exact hdd))
            (by rw [hqd]; exact hdd)
      · subst ht
        refine ⟨fun d' hd' => by simp at hd', fun d' hd' => by simp at hd',
          fun d' hd' => ?_⟩
        have : d = d' := by simpa using hd'
        subst this
        refine ⟨⟨d, r - 1, some s2.tm.next_id⟩, ?_, rfl, rfl⟩
        have step1 : (⟨d, r, none⟩ : connection_watch)
            ∈ update_cw s2.conn_watch_policies d (fun p => { p with timer := none }) :=
          mem_update_cw_self _ _ _ ⟨d, r, some tid⟩ hp0mem rfl
        exact mem_update_cw_self _ _ _ ⟨d, r, none⟩ step1 rfl
  · show (update_cw (update_cw s2.conn_watch_policies d (fun p => { p with timer := none }))
        d (fun p => { p with
                      retries_left := r - 1
                      timer := some s2.tm.next_id })).filter (fun p => p.device == d)
      = [⟨d, r - 1, some s.tm.next_id⟩]
    rw [update_cw_filter_self _ d
        (fun p => { p with retries_left := r - 1, timer := some s2.tm.next_id })
        (fun p => rfl),
      update_cw_filter_self _ d (fun p => { p with timer := none }) (fun p => rfl),
      filter_key_of_mem_nodup (fun p => p.device) _ d ⟨d, r, some tid⟩
        hInv.cw_nodup hp0mem rfl]
    rfl
  · show (s2.tm.armed
        ++ [(⟨s2.tm.next_id, s2.tm.now + CONN_WATCH_PERIOD_MS,
            TimerCb.conn_watch_cb d⟩ : ArmedTimer)]).filter
          (fun t => t.cb == TimerCb.conn_watch_cb d)
      = [⟨s.tm.next_id, dl + CONN_WATCH_PERIOD_MS, TimerCb.conn_watch_cb d⟩]
    rw [List.filter_append]
    have : s2.tm.armed.filter (fun t => t.cb == TimerCb.conn_watch_cb d) = [] := hno2
    rw [this]
    simp

/-- Bundled effect of `schedule_suspend` when no suspend is pending for the
device. -/
theorem schedule_suspend_spec (s' : PolicyState) (d ms : Nat) (r : SuspendReason)
    (hInv : Inv s') (habs : ∀ p ∈ s'.suspend_policies, p.device ≠ d) :
    Inv (schedule_suspend d ms r s')
      ∧ sus_for (schedule_suspend d ms r s') d = [⟨d, r, some s'.tm.next_id⟩]
      ∧ armed_for (schedule_suspend d ms r s') (TimerCb.suspend_cb d)
        = [⟨s'.tm.next_id, s'.tm.now + ms, TimerCb.suspend_cb d⟩]
      ∧ (schedule_suspend d ms r s').conn_watch_policies = s'.conn_watch_policies
      ∧ (∀ d', armed_for (schedule_suspend d ms r s') (TimerCb.conn_watch_cb d')
        = armed_for s' (TimerCb.conn_watch_cb d'))
      ∧ (schedule_suspend d ms r s').tm.next_id = s'.tm.next_id + 1
      ∧ (schedule_suspend d ms r s').tm.now = s'.tm.now := by
  refine ⟨Inv_schedule_suspend s' d ms r hInv, ?_⟩
  rw [schedule_suspend_of_absent s' d ms r habs]
  refine ⟨?_, ?_, rfl, ?_, rfl, rfl⟩
  · unfold sus_for
    simp only [List.filter_append, sus_filter_nil _ _ habs]
    simp
  · unfold armed_for
    simp only [List.filter_append, armed_sus_nil s' hInv.armed_matches d habs]
    simp
  · intro d'
    unfold armed_for
    simp only [List.filter_append]
    simp

theorem schedule_suspend_cwl (d ms : Nat) (r : SuspendReason) (s' : PolicyState) :
    (schedule_suspend d ms r s').conn_watch_policies = s'.conn_watch_policies := by
  unfold schedule_suspend
  cases s'.suspend_policies.find? (fun p => p.device == d) <;> rfl

theorem schedule_suspend_armed_cw (d ms : Nat) (r : SuspendReason)
    (s' : PolicyState) (d' : Nat) :
    armed_for (schedule_suspend d ms r s') (TimerCb.conn_watch_cb d')
      = armed_for s' (TimerCb.conn_watch_cb d') := by
  unfold schedule_suspend armed_for
  cases s'.suspend_policies.find? (fun p => p.device == d)
  · show (s'.tm.armed
        ++ [(⟨s'.tm.next_id, s'.tm.now + ms, TimerCb.suspend_cb d⟩ : ArmedTimer)]).filter
          (fun t => t.cb == TimerCb.conn_watch_cb d') = _
    rw [List.filter_append]
    simp
  · rfl

/-- Rewriting a device's connection-watch record (to clear its timer and set
its retries) and the trace preserves the invariant when the device has no
pending watch timer. -/
theorem Inv_cw_update2 (s : PolicyState) (d : Nat) (r' : Int) (tr : List Event)
    (hInv : Inv s) (hno : armed_for s (TimerCb.conn_watch_cb d) = []) :
    Inv { s with
          conn_watch_policies :=
            update_cw (update_cw s.conn_watch_policies d (fun p => { p with timer := none }))
              d (fun p => { p with retries_left := r' })
          trace := tr } := by
  constructor
  · exact hInv.ps_nodup
  · exact hInv.su_nodup
  · show (List.map (fun p => p.device)
      (update_cw (update_cw s.conn_watch_policies d (fun p => { p with timer := none }))
        d (fun p => { p with retries_left := r' }))).Nodup
    rw [update_cw_map_device _ d (fun p => { p with retries_left := r' }) (fun p => rfl),
      update_cw_map_device _ d (fun p => { p with timer := none }) (fun p => rfl)]
    exact hInv.cw_nodup
  · exact hInv.armed_nodup
  · exact hInv.armed_lt
  · intro t ht
    obtain ⟨h1, h2, h3⟩ := hInv.armed_matches t ht
    refine ⟨h1, h2, fun d' hd' => ?_⟩
    by_cases hdd : d' = d
    · exfalso
      subst hdd
      have : t ∈ armed_for s (TimerCb.conn_watch_cb d') := by
        unfold armed_for
        rw [List.mem_filter]
        exact ⟨ht, by simp [hd']⟩
      rw [hno] at this
      cases this
    · obtain ⟨q, hq, hqd, hqt⟩ := h3 d' hd'
      refine ⟨q, ?_, hqd, hqt⟩
      exact mem_update_cw_of_ne _ _ _ q
        (mem_update_cw_of_ne _ _ _ q hq (by rw [hqd]; exact hdd))
        (by rw [hqd]; exact hdd)

/-- The connection-watch tick on which retries run out: no watch timer is
re-armed, the record stays (timer NULL, retries 0), and a suspend with
reason `CONN_WATCH_TIME_OUT` and zero delay is scheduled. -/
theorem watch_tick_timeout (s : PolicyState) (d : Nat) (dev : DevState)
    (tid dl : Nat) (r : Int) (hInv : Inv s)
    (hcw : cw_for s d = [⟨d, r, some tid⟩])
    (hone : armed_for s (TimerCb.conn_watch_cb d)
      = [⟨tid, dl, TimerCb.conn_watch_cb d⟩])
    (hmis : profile_missing dev) (hr : r - 1 = 0)
    (hnosus : ∀ p ∈ s.suspend_policies, p.device ≠ d) :
    Inv (fire_conn_watch d dev s)
      ∧ cw_for (fire_conn_watch d dev s) d = [⟨d, 0, none⟩]
      ∧ armed_for (fire_conn_watch d dev s) (TimerCb.conn_watch_cb d) = []
      ∧ sus_for (fire_conn_watch d dev s) d
        = [⟨d, SuspendReason.CONN_WATCH_TIME_OUT, some s.tm.next_id⟩]
      ∧ armed_for (fire_conn_watch d dev s) (TimerCb.suspend_cb d)
        = [⟨s.tm.next_id, dl, TimerCb.suspend_cb d⟩]
      ∧ (fire_conn_watch d dev s).tm.next_id = s.tm.next_id + 1 := by
  have hp0mem : (⟨d, r, some tid⟩ : connection_watch) ∈ s.conn_watch_policies := by
    have : (⟨d, r, some tid⟩ : connection_watch)
        ∈ s.conn_watch_policies.filter (fun p => p.device == d) := by
      unfold cw_for at hcw
      rw [hcw]
      exact List.mem_singleton_self _
    exact List.mem_of_mem_filter this
  rw [fire_conn_watch_eq s d dev tid dl hInv hone]
  set s2 : PolicyState :=
    { s with
      tm := { now := dl
              next_id := s.tm.next_id
              armed := s.tm.armed.eraseP (fun a => a.id == tid) } } with hs2
  have hInv2 : Inv s2 := Inv_erase_armed s tid dl hInv
  have hno2 : armed_for s2 (TimerCb.conn_watch_cb d) = [] :=
    armed_for_erase_self s (TimerCb.conn_watch_cb d) tid dl hInv hone
  have hfind2 : s2.conn_watch_policies.find? (fun p => p.device == d)
      = some ⟨d, r, some tid⟩ := by
    apply find?_of_filter_singleton
    exact hcw
  rw [conn_watch_cb_timeout_eq s2 d dev ⟨d, r, some tid⟩ hfind2 hmis hr]
  refine ⟨?_, ?_, ?_, ?_, ?_, ?_⟩
  · exact (schedule_suspend_spec _ d 0 SuspendReason.CONN_WATCH_TIME_OUT
      (Inv_cw_update2 s2 d _ _ hInv2 hno2) (by intro p hp; exact hnosus p hp)).1
  · unfold cw_for
    rw [schedule_suspend_cwl]
    show (update_cw (update_cw s2.conn_watch_policies d (fun p => { p with timer := none }))
        d (fun p => { p with retries_left := r - 1 })).filter (fun p => p.device == d)
      = [⟨d, 0, none⟩]
    rw [update_cw_filter_self _ d
        (fun p => { p with retries_left := r - 1 }) (fun p => rfl),
      update_cw_filter_self _ d (fun p => { p with timer := none }) (fun p => rfl),
      filter_key_of_mem_nodup (fun p => p.device) _ d ⟨d, r, some tid⟩
        hInv.cw_nodup hp0mem rfl]
    simp [hr]
  · rw [schedule_suspend_armed_cw]
    exact hno2
  · exact (schedule_suspend_spec _ d 0 SuspendReason.CONN_WATCH_TIME_OUT
      (Inv_cw_update2 s2 d _ _ hInv2 hno2) (by intro p hp; exact hnosus p hp)).2.1
  · exact (schedule_suspend_spec _ d 0 SuspendReason.CONN_WATCH_TIME_OUT
      (Inv_cw_update2 s2 d _ _ hInv2 hno2) (by intro p hp; exact hnosus p hp)).2.2.1
  · exact (schedule_suspend_spec _ d 0 SuspendReason.CONN_WATCH_TIME_OUT
      (Inv_cw_update2 s2 d _ _ hInv2 hno2) (by intro p hp; exact hnosus p hp)).2.2.2.2.2.1

/-- Invariant of the connection-watch loop: after `start` and `n ≤ 29` ticks
that each find a supported profile unconnected, the watch record holds
`30 - n` retries and exactly one timer pending at `start_time + (n+1)·2000`,
and no suspend has been scheduled. -/
theorem run_watch_ticks_inv (d : Nat) (envs : Nat → DevState) (s : PolicyState)
    (hInv : Inv s) (hnosus : ∀ p ∈ s.suspend_policies, p.device ≠ d)
    (hmis : ∀ i, i < 30 → profile_missing (envs i)) :
    ∀ n, n ≤ 29 →
      Inv (run_watch_ticks d envs n (cras_bt_policy_start_connection_watch d s))
        ∧ cw_for (run_watch_ticks d envs n
              (cras_bt_policy_start_connection_watch d s)) d
          = [⟨d, CONN_WATCH_MAX_RETRIES - (n : Int), some (s.tm.next_id + n)⟩]
        ∧ armed_for (run_watch_ticks d envs n
              (cras_bt_policy_start_connection_watch d s)) (TimerCb.conn_watch_cb d)
          = [⟨s.tm.next_id + n, s.tm.now + (n + 1) * CONN_WATCH_PERIOD_MS,
              TimerCb.conn_watch_cb d⟩]
        ∧ (run_watch_ticks d envs n
            (cras_bt_policy_start_connection_watch d s)).suspend_policies
          = s.suspend_policies
        ∧ (run_watch_ticks d envs n
            (cras_bt_policy_start_connection_watch d s)).tm.next_id
          = s.tm.next_id + n + 1 := by
  intro n
  induction n with
  | zero =>
    intro _
    obtain ⟨hcw1, hcw2, hcw3, hcw4, hcw5, hcw6⟩ := start_cw_spec s d hInv
    refine ⟨Inv_start_connection_watch s d hInv, ?_, ?_, hcw3, ?_⟩
    · show cw_for (cras_bt_policy_start_connection_watch d s) d = _
      rw [hcw1]
      norm_num
    · show armed_for (cras_bt_policy_start_connection_watch d s)
          (TimerCb.conn_watch_cb d) = _
      rw [hcw2]
      norm_num
    · show (cras_bt_policy_start_connection_watch d s).tm.next_id = _
      rw [hcw5]
  | succ n ih =>
    intro hn
    have hprev := ih (by omega)
    have hr : (CONN_WATCH_MAX_RETRIES - (n : Int)) - 1 ≠ 0 := by
      simp only [CONN_WATCH_MAX_RETRIES]
      omega
    have hstep := watch_tick_retry
      (run_watch_ticks d envs n (cras_bt_policy_start_connection_watch d s)) d (envs n)
      (s.tm.next_id + n) (s.tm.now + (n + 1) * CONN_WATCH_PERIOD_MS)
      (CONN_WATCH_MAX_RETRIES - (n : Int))
      hprev.1 hprev.2.1 hprev.2.2.1 (hmis n (by omega)) hr
    refine ⟨hstep.1, ?_, ?_, ?_, ?_⟩
    · show cw_for (fire_conn_watch d (envs n)
          (run_watch_ticks d envs n (cras_bt_policy_start_connection_watch d s))) d = _
      rw [hstep.2.1, hprev.2.2.2.2]
      have h1 : CONN_WATCH_MAX_RETRIES - (n : Int) - 1
          = CONN_WATCH_MAX_RETRIES - ((n + 1 : Nat) : Int) := by
        push_cast
        ring
      rw [h1]
      rfl
    · show armed_for (fire_conn_watch d (envs n)
          (run_watch_ticks d envs n (cras_bt_policy_start_connection_watch d s)))
          (TimerCb.conn_watch_cb d) = _
      rw [hstep.2.2.1, hprev.2.2.2.2]
      have h2 : s.tm.now + (n + 1) * CONN_WATCH_PERIOD_MS + CONN_WATCH_PERIOD_MS
          = s.tm.now + (n + 1 + 1) * CONN_WATCH_PERIOD_MS := by
        ring
      rw [h2]
      rfl
    · show (fire_conn_watch d (envs n)
          (run_watch_ticks d envs n
            (cras_bt_policy_start_connection_watch d s))).suspend_policies = _
      rw [hstep.2.2.2.1, hprev.2.2.2.1]
    · show (fire_conn_watch d (envs n)
          (run_watch_ticks d envs n
            (cras_bt_policy_start_connection_watch d s))).tm.next_id = _
      rw [hstep.2.2.2.2, hprev.2.2.2.2]
      rfl

/-! ## Claim C5: connection-watch retry and timeout -/

/-- C5: starting a connection watch and letting every tick find a supported
profile still unconnected, the watch re-arms with a 2000 ms period on each
of ticks 1–29, decrementing `retries_left` from 30 each tick; on tick 30
(`retries_left` reaching 0) it schedules a suspend for the device with
reason `CONN_WATCH_TIME_OUT` and zero delay (the suspend timer is due at
the tick's own time, `start + 30·2000 ms`), and the watch timer is not
re-armed. -/
theorem C5_conn_watch_timeout (s : PolicyState) (d : Nat) (envs : Nat → DevState)
    (hInv : Inv s) (hnosus : ∀ p ∈ s.suspend_policies, p.device ≠ d)
    (hmis : ∀ i, i < 30 → profile_missing (envs i)) :
    (∀ n, 1 ≤ n → n ≤ 29 →
      cw_for (run_watch_ticks d envs n
            (cras_bt_policy_start_connection_watch d s)) d
          = [⟨d, CONN_WATCH_MAX_RETRIES - (n : Int), some (s.tm.next_id + n)⟩]
        ∧ armed_for (run_watch_ticks d envs n
            (cras_bt_policy_start_connection_watch d s)) (TimerCb.conn_watch_cb d)
          = [⟨s.tm.next_id + n, s.tm.now + (n + 1) * CONN_WATCH_PERIOD_MS,
              TimerCb.conn_watch_cb d⟩])
      ∧ cw_for (run_watch_ticks d envs 30
            (cras_bt_policy_start_connection_watch d s)) d = [⟨d, 0, none⟩]
      ∧ armed_for (run_watch_ticks d envs 30
          (cras_bt_policy_start_connection_watch d s)) (TimerCb.conn_watch_cb d) = []
      ∧ sus_for (run_watch_ticks d envs 30
            (cras_bt_policy_start_connection_watch d s)) d
        = [⟨d, SuspendReason.CONN_WATCH_TIME_OUT, some (s.tm.next_id + 30)⟩]
      ∧ armed_for (run_watch_ticks d envs 30
          (cras_bt_policy_start_connection_watch d s)) (TimerCb.suspend_cb d)
        = [⟨s.tm.next_id + 30, s.tm.now + 30 * CONN_WATCH_PERIOD_MS,
            TimerCb.suspend_cb d⟩] := by
  have hloop := run_watch_ticks_inv d envs s hInv hnosus hmis
  refine ⟨fun n h1 h29 => ⟨(hloop n h29).2.1, (hloop n h29).2.2.1⟩, ?_⟩
  have hprev := hloop 29 (by omega)
  have hr : (CONN_WATCH_MAX_RETRIES - ((29 : Nat) : Int)) - 1 = 0 := by
    simp [CONN_WATCH_MAX_RETRIES]
  have hnosus29 : ∀ p ∈ (run_watch_ticks d envs 29
      (cras_bt_policy_start_connection_watch d s)).suspend_policies, p.device ≠ d := by
    intro p hp
    rw [hprev.2.2.2.1] at hp
    exact hnosus p hp
  have hstep := watch_tick_timeout
    (run_watch_ticks d envs 29 (cras_bt_policy_start_connection_watch d s)) d (envs 29)
    (s.tm.next_id + 29) (s.tm.now + (29 + 1) * CONN_WATCH_PERIOD_MS)
    (CONN_WATCH_MAX_RETRIES - ((29 : Nat) : Int))
    hprev.1 hprev.2.1 hprev.2.2.1 (hmis 29 (by omega)) hr hnosus29
  refine ⟨?_, ?_, ?_, ?_⟩
  · show cw_for (fire_conn_watch d (envs 29)
        (run_watch_ticks d envs 29 (cras_bt_policy_start_connection_watch d s))) d = _
    rw [hstep.2.1]
  · show armed_for (fire_conn_watch d (envs 29)
        (run_watch_ticks d envs 29 (cras_bt_policy_start_connection_watch d s)))
        (TimerCb.conn_watch_cb d) = []
    rw [hstep.2.2.1]
  · show sus_for (fire_conn_watch d (envs 29)
        (run_watch_ticks d envs 29 (cras_bt_policy_start_connection_watch d s))) d = _
    rw [hstep.2.2.2.1, hprev.2.2.2.2]
  · show armed_for (fire_conn_watch d (envs 29)
        (run_watch_ticks d envs 29 (cras_bt_policy_start_connection_watch d s)))
        (TimerCb.suspend_cb d) = _
    rw [hstep.2.2.2.2.1, hprev.2.2.2.2]

/-- Witness for C5: device 1 (supports A2DP and HFP, mask 18, nothing ever
connects) from the pristine state. -/
theorem C5_conn_watch_timeout_witness :
    (∀ n, 1 ≤ n → n ≤ 29 →
      cw_for (run_watch_ticks 1 (fun _ => ⟨18, 0, none, none, 0⟩) n
            (cras_bt_policy_start_connection_watch 1 initial_state)) 1
          = [⟨1, CONN_WATCH_MAX_RETRIES - (n : Int),
              some (initial_state.tm.next_id + n)⟩]
        ∧ armed_for (run_watch_ticks 1 (fun _ => ⟨18, 0, none, none, 0⟩) n
            (cras_bt_policy_start_connection_watch 1 initial_state))
            (TimerCb.conn_watch_cb 1)
          = [⟨initial_state.tm.next_id + n,
              initial_state.tm.now + (n + 1) * CONN_WATCH_PERIOD_MS,
              TimerCb.conn_watch_cb 1⟩])
      ∧ cw_for (run_watch_ticks 1 (fun _ => ⟨18, 0, none, none, 0⟩) 30
            (cras_bt_policy_start_connection_watch 1 initial_state)) 1 = [⟨1, 0, none⟩]
      ∧ armed_for (run_watch_ticks 1 (fun _ => ⟨18, 0, none, none, 0⟩) 30
          (cras_bt_policy_start_connection_watch 1 initial_state))
          (TimerCb.conn_watch_cb 1) = []
      ∧ sus_for (run_watch_ticks 1 (fun _ => ⟨18, 0, none, none, 0⟩) 30
            (cras_bt_policy_start_connection_watch 1 initial_state)) 1
        = [⟨1, SuspendReason.CONN_WATCH_TIME_OUT, some (initial_state.tm.next_id + 30)⟩]
      ∧ armed_for (run_watch_ticks 1 (fun _ => ⟨18, 0, none, none, 0⟩) 30
          (cras_bt_policy_start_connection_watch 1 initial_state))
          (TimerCb.suspend_cb 1)
        = [⟨initial_state.tm.next_id + 30,
            initial_state.tm.now + 30 * CONN_WATCH_PERIOD_MS, TimerCb.suspend_cb 1⟩] :=
  C5_conn_watch_timeout initial_state 1 (fun _ => ⟨18, 0, none, none, 0⟩)
    Inv_initial (by simp [initial_state])
    (fun i hi => by
      show profile_missing ⟨18, 0, none, none, 0⟩
      unfold profile_missing
      decide)

/-! ## Per-device uniqueness of policy records across every operation -/

theorem schedule_suspend_psl (d ms : Nat) (r : SuspendReason) (s : PolicyState) :
    (schedule_suspend d ms r s).profile_switch_policies = s.profile_switch_policies := by
  unfold schedule_suspend
  cases s.suspend_policies.find? (fun p => p.device == d) <;> rfl

theorem sus_nodup_schedule (d ms : Nat) (r : SuspendReason) (s : PolicyState)
    (h : (s.suspend_policies.map (fun p => p.device)).Nodup) :
    ((schedule_suspend d ms r s).suspend_policies.map (fun p => p.device)).Nodup := by
  cases hf : s.suspend_policies.find? (fun p => p.device == d) with
  | some p0 =>
    rw [schedule_suspend_of_present _ _ _ _ p0 hf]
    exact h
  | none =>
    have habsent : ∀ p ∈ s.suspend_policies, p.device ≠ d := fun p hp => by
      simpa using List.find?_eq_none.mp hf p hp
    rw [schedule_suspend_of_absent _ _ _ _ habsent]
    simp only [List.map_append, List.map_cons, List.map_nil]
    refine List.Nodup.append h (List.nodup_singleton d) (List.disjoint_left.mpr ?_)
    intro a ha
    simp only [List.mem_map] at ha
    obtain ⟨p, hp, hpa⟩ := ha
    simp only [List.mem_singleton]
    rw [← hpa]
    exact habsent p hp

theorem sus_nodup_cancel (d : Nat) (s : PolicyState)
    (h : (s.suspend_policies.map (fun p => p.device)).Nodup) :
    ((cancel_suspend d s).suspend_policies.map (fun p => p.device)).Nodup := by
  unfold cancel_suspend
  cases s.suspend_policies.find? (fun p => p.device == d)
  · exact h
  · exact ((List.eraseP_sublist s.suspend_policies).map
      (fun p : suspend_policy => p.device)).nodup h

theorem cancel_suspend_psl (d : Nat) (s : PolicyState) :
    (cancel_suspend d s).profile_switch_policies = s.profile_switch_policies := by
  unfold cancel_suspend
  cases s.suspend_policies.find? (fun p => p.device == d) <;> rfl

theorem cancel_suspend_cwl (d : Nat) (s : PolicyState) :
    (cancel_suspend d s).conn_watch_policies = s.conn_watch_policies := by
  unfold cancel_suspend
  cases s.suspend_policies.find? (fun p => p.device == d) <;> rfl

theorem swd_ps_nodup (d : Nat) (s : PolicyState)
    (h : (s.profile_switch_policies.map (fun p => p.device)).Nodup) :
    ((switch_profile_with_delay d s).profile_switch_policies.map
      (fun p => p.device)).Nodup := by
  cases hf : s.profile_switch_policies.find? (fun p => p.device == d) with
  | none =>
    have habsent : ∀ p ∈ s.profile_switch_policies, p.device ≠ d := fun p hp => by
      simpa using List.find?_eq_none.mp hf p hp
    rw [swd_of_absent s d habsent]
    simp only [List.map_append, List.map_cons, List.map_nil]
    refine List.Nodup.append h (List.nodup_singleton d) (List.disjoint_left.mpr ?_)
    intro a ha
    simp only [List.mem_map] at ha
    obtain ⟨p, hp, hpa⟩ := ha
    simp only [List.mem_singleton]
    rw [← hpa]
    exact habsent p hp
  | some p0 =>
    rw [swd_of_present s d p0 hf]
    simp only [List.map_append, List.map_cons, List.map_nil]
    refine List.Nodup.append
      (((List.eraseP_sublist s.profile_switch_policies).map
        (fun p : profile_switch_policy => p.device)).nodup h)
      (List.nodup_singleton d) (List.disjoint_left.mpr ?_)
    intro a ha
    simp only [List.mem_map] at ha
    obtain ⟨p, hp, hpa⟩ := ha
    simp only [List.mem_singleton]
    rw [← hpa]
    rw [psw_eraseP_eq_filter _ _ h] at hp
    exact psw_filter_bne_no_key _ _ p hp

theorem switch_profile_susl (d : Nat) (dev : DevState) (s : PolicyState) :
    (switch_profile d dev s).suspend_policies = s.suspend_policies := by
  unfold switch_profile all_directions
  simp only [List.foldl_cons, List.foldl_nil, DevState.bt_iodevs]
  cases ho : dev.bt_iodev_output <;> cases hi : dev.bt_iodev_input <;>
    simp [emit, swd_sus]

theorem switch_profile_cwl (d : Nat) (dev : DevState) (s : PolicyState) :
    (switch_profile d dev s).conn_watch_policies = s.conn_watch_policies := by
  unfold switch_profile all_directions
  simp only [List.foldl_cons, List.foldl_nil, DevState.bt_iodevs]
  cases ho : dev.bt_iodev_output <;> cases hi : dev.bt_iodev_input <;>
    simp [emit, swd_cwl]

theorem switch_profile_ps_nodup (d : Nat) (dev : DevState) (s : PolicyState)
    (h : (s.profile_switch_policies.map (fun p => p.device)).Nodup) :
    ((switch_profile d dev s).profile_switch_policies.map (fun p => p.device)).Nodup := by
  unfold switch_profile all_directions
  simp only [List.foldl_cons, List.foldl_nil, DevState.bt_iodevs]
  cases ho : dev.bt_iodev_output <;> cases hi : dev.bt_iodev_input <;>
    simp only [emit_psw] <;>
    first
      | exact h
      | exact swd_ps_nodup d _ h

theorem start_cw_psl (d : Nat) (s : PolicyState) :
    (cras_bt_policy_start_connection_watch d s).profile_switch_policies
      = s.profile_switch_policies := by
  unfold cras_bt_policy_start_connection_watch
  cases s.conn_watch_policies.find? (fun p => p.device == d) <;> rfl

theorem start_cw_susl (d : Nat) (s : PolicyState) :
    (cras_bt_policy_start_connection_watch d s).suspend_policies
      = s.suspend_policies := by
  unfold cras_bt_policy_start_connection_watch
  cases s.conn_watch_policies.find? (fun p => p.device == d) <;> rfl

theorem cw_nodup_start (d : Nat) (s : PolicyState)
    (h : (s.conn_watch_policies.map (fun p => p.device)).Nodup) :
    ((cras_bt_policy_start_connection_watch d s).conn_watch_policies.map
      (fun p => p.device)).Nodup := by
  cases hf : s.conn_watch_policies.find? (fun p => p.device == d) with
  | none =>
    have habsent : ∀ p ∈ s.conn_watch_policies, p.device ≠ d := fun p hp => by
      simpa using List.find?_eq_none.mp hf p hp
    rw [start_cw_of_absent s d habsent]
    simp only [List.map_append, List.map_cons, List.map_nil]
    refine List.Nodup.append h (List.nodup_singleton d) (List.disjoint_left.mpr ?_)
    intro a ha
    simp only [List.mem_map] at ha
    obtain ⟨p, hp, hpa⟩ := ha
    simp only [List.mem_singleton]
    rw [← hpa]
    exact habsent p hp
  | some p0 =>
    rw [start_cw_of_present s d p0 hf]
    show (List.map (fun p => p.device)
      (update_cw s.conn_watch_policies d
        (fun p => { p with
                    retries_left := CONN_WATCH_MAX_RETRIES
                    timer := some s.tm.next_id }))).Nodup
    rw [update_cw_map_device s.conn_watch_policies d
      (fun p => { p with
                  retries_left := CONN_WATCH_MAX_RETRIES
                  timer := some s.tm.next_id }) (fun p => rfl)]
    exact h

theorem stop_cw_psl (d : Nat) (s : PolicyState) :
    (cras_bt_policy_stop_connection_watch d s).profile_switch_policies
      = s.profile_switch_policies := by
  unfold cras_bt_policy_stop_connection_watch
  cases s.conn_watch_policies.find? (fun p => p.device == d) <;> rfl

theorem stop_cw_susl (d : Nat) (s : PolicyState) :
    (cras_bt_policy_stop_connection_watch d s).suspend_policies
      = s.suspend_policies := by
  unfold cras_bt_policy_stop_connection_watch
  cases s.conn_watch_policies.find? (fun p => p.device == d) <;> rfl

theorem cw_nodup_stop (d : Nat) (s : PolicyState)
    (h : (s.conn_watch_policies.map (fun p => p.device)).Nodup) :
    ((cras_bt_policy_stop_connection_watch d s).conn_watch_policies.map
      (fun p => p.device)).Nodup := by
  unfold cras_bt_policy_stop_connection_watch
  cases s.conn_watch_policies.find? (fun p => p.device == d)
  · exact h
  · exact ((List.eraseP_sublist s.conn_watch_policies).map
      (fun p : connection_watch => p.device)).nodup h

/-! Nodup preservation through the timer callbacks. -/

theorem psd_cb_susl (d : Nat) (dev : DevState) (s : PolicyState) :
    (profile_switch_delay_cb d dev s).suspend_policies = s.suspend_policies := by
  unfold profile_switch_delay_cb
  cases dev.bt_iodevs .CRAS_STREAM_OUTPUT <;> rfl

theorem psd_cb_cwl (d : Nat) (dev : DevState) (s : PolicyState) :
    (profile_switch_delay_cb d dev s).conn_watch_policies
      = s.conn_watch_policies := by
  unfold profile_switch_delay_cb
  cases dev.bt_iodevs .CRAS_STREAM_OUTPUT <;> rfl

theorem psd_cb_ps_nodup (d : Nat) (dev : DevState) (s : PolicyState)
    (h : (s.profile_switch_policies.map (fun p => p.device)).Nodup) :
    ((profile_switch_delay_cb d dev s).profile_switch_policies.map
      (fun p => p.device)).Nodup := by
  unfold profile_switch_delay_cb
  cases dev.bt_iodevs .CRAS_STREAM_OUTPUT <;>
    exact ((List.eraseP_sublist _).map (fun p : profile_switch_policy => p.device)).nodup h

theorem sus_cb_psl (d : Nat) (dev : DevState) (s : PolicyState) :
    (suspend_cb d dev s).profile_switch_policies = s.profile_switch_policies := by
  unfold suspend_cb
  cases s.suspend_policies.find? (fun p => p.device == d) <;> rfl

theorem sus_cb_cwl (d : Nat) (dev : DevState) (s : PolicyState) :
    (suspend_cb d dev s).conn_watch_policies = s.conn_watch_policies := by
  unfold suspend_cb
  cases s.suspend_policies.find? (fun p => p.device == d) <;> rfl

theorem sus_cb_sus_nodup (d : Nat) (dev : DevState) (s : PolicyState)
    (h : (s.suspend_policies.map (fun p => p.device)).Nodup) :
    ((suspend_cb d dev s).suspend_policies.map (fun p => p.device)).Nodup := by
  unfold suspend_cb
  cases s.suspend_policies.find? (fun p => p.device == d)
  · exact h
  · exact ((List.eraseP_sublist _).map (fun p : suspend_policy => p.device)).nodup h

theorem cw_cb_psl (d : Nat) (dev : DevState) (s : PolicyState) :
    (conn_watch_cb d dev s).profile_switch_policies
      = s.profile_switch_policies := by
  unfold conn_watch_cb
  cases s.conn_watch_policies.find? (fun p => p.device == d)
  · rfl
  · simp only []
    split_ifs <;> simp [emit, emit_many, schedule_suspend_psl, cras_tm_create_timer]

theorem cw_cb_sus_nodup (d : Nat) (dev : DevState) (s : PolicyState)
    (h : (s.suspend_policies.map (fun p => p.device)).Nodup) :
    ((conn_watch_cb d dev s).suspend_policies.map (fun p => p.device)).Nodup := by
  unfold conn_watch_cb
  cases s.conn_watch_policies.find? (fun p => p.device == d)
  · exact h
  · simp only []
    split_ifs <;>
      first
        | exact h
        | exact sus_nodup_schedule _ _ _ _ h

theorem cw_cb_cw_nodup (d : Nat) (dev : DevState) (s : PolicyState)
    (h : (s.conn_watch_policies.map (fun p => p.device)).Nodup) :
    ((conn_watch_cb d dev s).conn_watch_policies.map (fun p => p.device)).Nodup := by
  have hupd1 : ((update_cw s.conn_watch_policies d
      (fun p => { p with timer := none })).map (fun p => p.device)).Nodup := by
    rw [update_cw_map_device _ d (fun p => { p with timer := none }) (fun p => rfl)]
    exact h
  unfold conn_watch_cb
  cases s.conn_watch_policies.find? (fun p => p.device == d) with
  | none => exact h
  | some p0 =>
    simp only []
    split_ifs <;>
      simp only [emit_cw, emit_many_cw, schedule_suspend_cwl, create_tm_cw] <;>
      first
        | exact ((List.eraseP_sublist _).map
            (fun p : connection_watch => p.device)).nodup hupd1
        | · simp only [update_cw_map_device2]
            exact h

/-- `fire_timer_id` with no matching armed timer is a no-op. -/
theorem fire_timer_id_find_none (tid : Nat) (dev : DevState) (s : PolicyState)
    (h : s.tm.armed.find? (fun t => t.id == tid) = none) :
    fire_timer_id tid dev s = s := by
  unfold fire_timer_id
  rw [h]

/-- `fire_timer_id` with a matching armed timer dispatches its callback on
the post-removal state. -/
theorem fire_timer_id_find_some (tid : Nat) (dev : DevState) (s : PolicyState)
    (t : ArmedTimer) (h : s.tm.armed.find? (fun a => a.id == tid) = some t) :
    fire_timer_id tid dev s
      = dispatch_cb t.cb dev
          { s with
            tm := { now := t.deadline
                    next_id := s.tm.next_id
                    armed := s.tm.armed.eraseP (fun a => a.id == tid) } } := by
  unfold fire_timer_id
  rw [h]

/-- `cras_bt_policy_remove_device` with no profile-switch record for the
device reduces to cancelling its suspend and stopping its watch. -/
theorem remove_device_of_absent (d : Nat) (s : PolicyState)
    (h : s.profile_switch_policies.find? (fun p => p.device == d) = none) :
    cras_bt_policy_remove_device d s
      = cras_bt_policy_stop_connection_watch d (cancel_suspend d s) := by
  unfold cras_bt_policy_remove_device
  rw [h]

/-- `cras_bt_policy_remove_device` with a profile-switch record for the
device first erases that record and cancels its timer. -/
theorem remove_device_of_present (d : Nat) (s : PolicyState)
    (p0 : profile_switch_policy)
    (h : s.profile_switch_policies.find? (fun p => p.device == d) = some p0) :
    cras_bt_policy_remove_device d s
      = cras_bt_policy_stop_connection_watch d
          (cancel_suspend d
            (cras_tm_cancel_timer
              { s with
                profile_switch_policies :=
                  s.profile_switch_policies.eraseP (fun p => p.device == d) }
              p0.timer)) := by
  unfold cras_bt_policy_remove_device
  rw [h]

/-- Nodup preservation for the tail of `cras_bt_policy_remove_device`
(`cancel_suspend` then stop the connection watch). -/
theorem tail_nodup (X : PolicyState) (d : Nat)
    (hx1 : (X.profile_switch_policies.map (fun p => p.device)).Nodup)
    (hx2 : (X.suspend_policies.map (fun p => p.device)).Nodup)
    (hx3 : (X.conn_watch_policies.map (fun p => p.device)).Nodup) :
    ((cras_bt_policy_stop_connection_watch d
        (cancel_suspend d X)).profile_switch_policies.map (fun p => p.device)).Nodup
      ∧ ((cras_bt_policy_stop_connection_watch d
          (cancel_suspend d X)).suspend_policies.map (fun p => p.device)).Nodup
      ∧ ((cras_bt_policy_stop_connection_watch d
          (cancel_suspend d X)).conn_watch_policies.map (fun p => p.device)).Nodup := by
  refine ⟨?_, ?_, ?_⟩
  · rw [stop_cw_psl, cancel_suspend_psl]
    exact hx1
  · rw [stop_cw_susl]
    exact sus_nodup_cancel d X hx2
  · refine cw_nodup_stop d _ ?_
    rw [cancel_suspend_cwl]
    exact hx3

/-- One step of any policy operation keeps every policy list free of
duplicate devices. -/
theorem step_nodup (s : PolicyState) (op : PolicyOp)
    (h1 : (s.profile_switch_policies.map (fun p => p.device)).Nodup)
    (h2 : (s.suspend_policies.map (fun p => p.device)).Nodup)
    (h3 : (s.conn_watch_policies.map (fun p => p.device)).Nodup) :
    ((step s op).profile_switch_policies.map (fun p => p.device)).Nodup
      ∧ ((step s op).suspend_policies.map (fun p => p.device)).Nodup
      ∧ ((step s op).conn_watch_policies.map (fun p => p.device)).Nodup := by
  cases op with
  | op_switch_profile d dev =>
    refine ⟨switch_profile_ps_nodup d dev s h1, ?_, ?_⟩
    · show ((switch_profile d dev s).suspend_policies.map (fun p => p.device)).Nodup
      rw [switch_profile_susl]
      exact h2
    · show ((switch_profile d dev s).conn_watch_policies.map (fun p => p.device)).Nodup
      rw [switch_profile_cwl]
      exact h3
  | op_schedule_suspend d ms r =>
    refine ⟨?_, sus_nodup_schedule d ms r s h2, ?_⟩
    · show ((schedule_suspend d ms r s).profile_switch_policies.map
        (fun p => p.device)).Nodup
      rw [schedule_suspend_psl]
      exact h1
    · show ((schedule_suspend d ms r s).conn_watch_policies.map
        (fun p => p.device)).Nodup
      rw [schedule_suspend_cwl]
      exact h3
  | op_cancel_suspend d =>
    refine ⟨?_, sus_nodup_cancel d s h2, ?_⟩
    · show ((cancel_suspend d s).profile_switch_policies.map (fun p => p.device)).Nodup
      rw [cancel_suspend_psl]
      exact h1
    · show ((cancel_suspend d s).conn_watch_policies.map (fun p => p.device)).Nodup
      rw [cancel_suspend_cwl]
      exact h3
  | op_start_conn_watch d =>
    refine ⟨?_, ?_, cw_nodup_start d s h3⟩
    · show ((cras_bt_policy_start_connection_watch d s).profile_switch_policies.map
        (fun p => p.device)).Nodup
      rw [start_cw_psl]
      exact h1
    · show ((cras_bt_policy_start_connection_watch d s).suspend_policies.map
        (fun p => p.device)).Nodup
      rw [start_cw_susl]
      exact h2
  | op_stop_conn_watch d =>
    refine ⟨?_, ?_, cw_nodup_stop d s h3⟩
    · show ((cras_bt_policy_stop_connection_watch d s).profile_switch_policies.map
        (fun p => p.device)).Nodup
      rw [stop_cw_psl]
      exact h1
    · show ((cras_bt_policy_stop_connection_watch d s).suspend_policies.map
        (fun p => p.device)).Nodup
      rw [stop_cw_susl]
      exact h2
  | op_remove_device d =>
    show ((cras_bt_policy_remove_device d s).profile_switch_policies.map
        (fun p => p.device)).Nodup
      ∧ ((cras_bt_policy_remove_device d s).suspend_policies.map
          (fun p => p.device)).Nodup
      ∧ ((cras_bt_policy_remove_device d s).conn_watch_policies.map
          (fun p => p.device)).Nodup
    cases hf : s.profile_switch_policies.find? (fun p => p.device == d) with
    | none =>
      rw [remove_device_of_absent d s hf]
      exact tail_nodup s d h1 h2 h3
    | some p0 =>
      rw [remove_device_of_present d s p0 hf]
      refine tail_nodup _ d ?_ ?_ ?_
      · rw [cancel_tm_psw]
        exact ((List.eraseP_sublist s.profile_switch_policies).map
          (fun p : profile_switch_policy => p.device)).nodup h1
      · rw [cancel_tm_sus]
        exact h2
      · rw [cancel_tm_cw]
        exact h3
  | op_fire tid dev =>
    show ((fire_timer_id tid dev s).profile_switch_policies.map
        (fun p => p.device)).Nodup
      ∧ ((fire_timer_id tid dev s).suspend_policies.map
          (fun p => p.device)).Nodup
      ∧ ((fire_timer_id tid dev s).conn_watch_policies.map
          (fun p => p.device)).Nodup
    cases hft : s.tm.armed.find? (fun a => a.id == tid) with
    | none =>
      rw [fire_timer_id_find_none tid dev s hft]
      exact ⟨h1, h2, h3⟩
    | some t =>
      rw [fire_timer_id_find_some tid dev s t hft]
      cases hcb : t.cb with
      | profile_switch_delay_cb d =>
        simp only [dispatch_cb]
        refine ⟨psd_cb_ps_nodup d dev _ h1, ?_, ?_⟩
        · rw [psd_cb_susl]
          exact h2
        · rw [psd_cb_cwl]
          exact h3
      | suspend_cb d =>
        simp only [dispatch_cb]
        refine ⟨?_, sus_cb_sus_nodup d dev _ h2, ?_⟩
        · rw [sus_cb_psl]
          exact h1
        · rw [sus_cb_cwl]
          exact h3
      | conn_watch_cb d =>
        simp only [dispatch_cb]
        refine ⟨?_, cw_cb_sus_nodup d dev _ h2, cw_cb_cw_nodup d dev _ h3⟩
        rw [cw_cb_psl]
        exact h1
  | op_advance ms => exact ⟨h1, h2, h3⟩

/-! ## Claim C9: at most one record per device in every policy list -/

/-- C9: after any sequence of policy operations (profile switches, suspend
scheduling and cancellation, starting/stopping connection watches, device
removal, timer expiries, time passing) starting from the pristine state,
each policy list holds at most one record per BT device: the device keys of
the profile-switch, suspend, and connection-watch lists are each free of
duplicates. -/
theorem C9_per_device_uniqueness (ops : List PolicyOp) :
    ((run initial_state ops).profile_switch_policies.map (fun p => p.device)).Nodup
      ∧ ((run initial_state ops).suspend_policies.map (fun p => p.device)).Nodup
      ∧ ((run initial_state ops).conn_watch_policies.map (fun p => p.device)).Nodup := by
  suffices h : ∀ (l : List PolicyOp) (s : PolicyState),
      (s.profile_switch_policies.map (fun p => p.device)).Nodup →
      (s.suspend_policies.map (fun p => p.device)).Nodup →
      (s.conn_watch_policies.map (fun p => p.device)).Nodup →
      ((run s l).profile_switch_policies.map (fun p => p.device)).Nodup
        ∧ ((run s l).suspend_policies.map (fun p => p.device)).Nodup
        ∧ ((run s l).conn_watch_policies.map (fun p => p.device)).Nodup by
    exact h ops initial_state (by simp [initial_state]) (by simp [initial_state])
      (by simp [initial_state])
  intro l
  induction l with
  | nil => exact fun s hs1 hs2 hs3 => ⟨hs1, hs2, hs3⟩
  | cons op rest ih =>
    intro s hs1 hs2 hs3
    obtain ⟨g1, g2, g3⟩ := step_nodup s op hs1 hs2 hs3
    exact ih (step s op) g1 g2 g3

/-! ## Claim C8: what a firing suspend does -/

/-- C8: when a pending suspend timer fires for device `d`, the callback logs
the stored reason, suspends A2DP, suspends HFP-AG, and force-disconnects the
device, exactly once each and in that order, then deletes the suspend
record, leaving no pending suspend for the device. -/
theorem C8_suspend_cb_fire (s : PolicyState) (d : Nat) (dev : DevState)
    (t : ArmedTimer) (p : suspend_policy) (hInv : Inv s)
    (ht : t ∈ s.tm.armed) (hcb : t.cb = TimerCb.suspend_cb d)
    (hp : p ∈ s.suspend_policies) (hpd : p.device = d) :
    (fire_timer_id t.id dev s).trace
        = s.trace
          ++ [Event.btlog_suspend_cb dev.profiles p.suspend_reason,
              Event.syslog_err (suspend_reason_msg p.suspend_reason),
              Event.a2dp_suspend_connected_device d,
              Event.hfp_ag_suspend_connected_device d,
              Event.bt_device_disconnect d]
      ∧ sus_for (fire_timer_id t.id dev s) d = []
      ∧ armed_for (fire_timer_id t.id dev s) (TimerCb.suspend_cb d) = [] := by
  rw [fire_timer_id_eq s t dev hInv.armed_nodup ht, hcb]
  simp only [dispatch_cb]
  have hfind :
      ({ s with
         tm := { now := t.deadline
                 next_id := s.tm.next_id
                 armed := s.tm.armed.eraseP (fun a => a.id == t.id) } }
        : PolicyState).suspend_policies.find? (fun q => q.device == d) = some p :=
    find?_eq_of_mem_nodup (fun q => q.device) _ d p hInv.su_nodup hp hpd
  unfold suspend_cb
  rw [hfind]
  refine ⟨by simp, ?_, ?_⟩
  · unfold sus_for
    simp only [emit_sus]
    rw [sus_eraseP_eq_filter _ _ hInv.su_nodup]
    exact sus_filter_nil _ _ (sus_filter_bne_no_key _ _)
  · unfold armed_for
    simp only [emit_tm]
    rw [List.filter_eq_nil_iff]
    intro u hu
    simp only [beq_iff_eq]
    intro hucb
    rw [armed_eraseP_eq_filter s hInv.armed_nodup t.id] at hu
    have hum : u ∈ s.tm.armed := List.mem_of_mem_filter hu
    have hune : u.id ≠ t.id := by
      have := List.of_mem_filter hu
      simpa using this
    have h1 : p.timer = some u.id := armed_sus_all_id s hInv d p hp hpd u hum hucb
    have h2 : p.timer = some t.id := armed_sus_all_id s hInv d p hp hpd t ht hcb
    rw [h1] at h2
    exact hune (by simpa using h2)

/-- Witness for C8: fire a scheduled suspend from the pristine state. -/
theorem C8_suspend_cb_fire_witness :
    (fire_timer_id 0 ⟨18, 18, none, none, 0⟩
        (schedule_suspend 5 100 SuspendReason.UNEXPECTED_PROFILE_DROP initial_state)).trace
        = (schedule_suspend 5 100 SuspendReason.UNEXPECTED_PROFILE_DROP initial_state).trace
          ++ [Event.btlog_suspend_cb 18 SuspendReason.UNEXPECTED_PROFILE_DROP,
              Event.syslog_err (suspend_reason_msg SuspendReason.UNEXPECTED_PROFILE_DROP),
              Event.a2dp_suspend_connected_device 5,
              Event.hfp_ag_suspend_connected_device 5,
              Event.bt_device_disconnect 5]
      ∧ sus_for (fire_timer_id 0 ⟨18, 18, none, none, 0⟩
          (schedule_suspend 5 100 SuspendReason.UNEXPECTED_PROFILE_DROP initial_state)) 5 = []
      ∧ armed_for (fire_timer_id 0 ⟨18, 18, none, none, 0⟩
          (schedule_suspend 5 100 SuspendReason.UNEXPECTED_PROFILE_DROP initial_state))
          (TimerCb.suspend_cb 5) = [] :=
  C8_suspend_cb_fire
    (schedule_suspend 5 100 SuspendReason.UNEXPECTED_PROFILE_DROP initial_state)
    5 ⟨18, 18, none, none, 0⟩ ⟨0, 100, TimerCb.suspend_cb 5⟩
    ⟨5, SuspendReason.UNEXPECTED_PROFILE_DROP, some 0⟩
    (Inv_schedule_suspend initial_state 5 100 SuspendReason.UNEXPECTED_PROFILE_DROP Inv_initial)
    (by decide) rfl (by decide) rfl

/-- Witness for C10 at volume 37 and gain -500. -/
theorem C10_active_node_null_witness :
    cras_iodev_adjust_active_node_volume ⟨none⟩ 37 = 37
      ∧ cras_iodev_adjust_active_node_gain ⟨none⟩ (-500) = -500 :=
  C10_active_node_null ⟨none⟩ 37 (-500) rfl

end Cras
